import Mathlib

/-!
Shallow embedding of the RF planning engine (src/services/rfEngine.ts, first
variant, together with the antenna catalog of src/constants.ts and the data
model of src/types.ts).  JavaScript numbers are modelled as real numbers;
JavaScript's `a || b` on numbers, `%`, `Math.round` and `Math.atan2` get
explicit counterparts below.
-/

noncomputable section

/-! ## JavaScript numeric semantics -/

/-- JavaScript `a || b` for (non-NaN) numbers: `b` when `a` is `0`, else `a`. -/
def jsOr (a b : ℝ) : ℝ := if a = 0 then b else a

/-- Truncation toward zero, as JavaScript division-based remainders use. -/
def jsTrunc (x : ℝ) : ℝ := if 0 ≤ x then (⌊x⌋ : ℤ) else (⌈x⌉ : ℤ)

/-- JavaScript `x % y`: the remainder with the sign of the dividend. -/
def jsMod (x y : ℝ) : ℝ := x - y * jsTrunc (x / y)

/-- JavaScript `Math.round`: half-up rounding, `⌊x + 1/2⌋`. -/
def jsRound (x : ℝ) : ℝ := (⌊x + 1/2⌋ : ℤ)

/-- JavaScript `Math.atan2 y x` (sign conventions of the zero cases follow
`Math.atan2` on positive zeros). -/
def atan2 (y x : ℝ) : ℝ :=
  if 0 < x then Real.arctan (y / x)
  else if x < 0 then
    (if 0 ≤ y then Real.arctan (y / x) + Real.pi else Real.arctan (y / x) - Real.pi)
  else if 0 < y then Real.pi / 2
  else if y < 0 then -(Real.pi / 2)
  else 0

/-! ## Data model (src/types.ts) -/

inductive TowerType where
  | monopole
  | lattice
  | guyed
  | rooftop

inductive SiteStatus where
  | planned
  | active
  | retired

structure AntennaModel where
  id : String
  vendor : String
  model : String
  gainDbi : ℝ
  horizontalBeamwidth : ℝ
  verticalBeamwidth : ℝ
  frequencyRange : ℝ × ℝ
  weightKg : ℝ
  ports : ℕ

structure Sector where
  id : String
  antennaId : String
  azimuth : ℝ
  mechanicalTilt : ℝ
  electricalTilt : ℝ
  txPowerDbm : ℝ
  frequencyMhz : ℝ
  heightM : ℝ

structure Site where
  id : String
  name : String
  lat : ℝ
  lng : ℝ
  towerHeightM : ℝ
  towerType : TowerType
  sectors : List Sector
  status : SiteStatus

/-- The shape `getPhoneSignalProfile` returns (the populated part of
`Partial<PhoneDeviceState>`). -/
structure PhoneProfile where
  lat : ℝ
  lng : ℝ
  rsrp : ℝ
  sinr : ℝ
  servingCellId : Option String
  servingSiteName : Option String
  neighbors : List (String × ℝ)

/-- A suggestion record produced by `findOptimalNextSites`. -/
structure SiteSuggestion where
  lat : ℝ
  lng : ℝ
  reason : String
  sectors : List Sector

/-- A grid point candidate scored inside `findOptimalNextSites`. -/
structure GridCandidate where
  lat : ℝ
  lng : ℝ
  score : ℝ
  traffic : ℝ
  meshContinuity : ℝ

/-! ## Antenna catalog (src/constants.ts) -/

def ANTENNA_LIBRARY : List AntennaModel := [
  ⟨"h-amb4519", "Huawei", "AMB4519R13v06", 18.5, 65, 6.5, (690, 2690), 35, 14⟩,
  ⟨"h-ape4518", "Huawei", "APE4518R47v06", 17.8, 65, 7.2, (790, 2170), 28, 10⟩,
  ⟨"h-ape4517", "Huawei", "APE4517R16v06", 18.2, 65, 6.8, (1710, 2690), 22, 8⟩,
  ⟨"h-a094519", "Huawei", "A094519R3v06", 19.1, 65, 5.5, (1710, 2690), 31, 12⟩,
  ⟨"h-aau-5g", "Huawei", "AAU5613 (5G)", 25.5, 12, 6, (3400, 3600), 40, 64⟩,
  ⟨"e-4870-p", "Ericsson", "4870 Series Passive", 17.5, 65, 7.5, (698, 2690), 26, 10⟩,
  ⟨"e-air-6449", "Ericsson", "AIR 6449 (B41)", 24.5, 12, 6, (2496, 2690), 38, 64⟩,
  ⟨"e-air-3239", "Ericsson", "AIR 3239 (B78)", 23.0, 15, 8, (3400, 3800), 25, 32⟩,
  ⟨"e-air-5121", "Ericsson", "AIR 5121 (mmWave)", 34.0, 4, 4, (27000, 29500), 18, 1024⟩,
  ⟨"e-p-1", "Ericsson", "Passive Tri-Band", 18.1, 65, 7.0, (1710, 2690), 23, 6⟩,
  ⟨"cb-hexa", "Comba Telecom", "Hexa-band Panel", 17.2, 65, 7.5, (698, 2690), 34, 12⟩,
  ⟨"cb-multi-4x4", "Comba Telecom", "Multi-Polarized 4x4", 18.0, 65, 6.8, (1710, 2690), 19, 8⟩,
  ⟨"cb-odd", "Comba Telecom", "ODV-065R17K-G", 17.0, 65, 7.0, (1710, 2170), 16.5, 4⟩,
  ⟨"amp-mb-2p", "Amphenol", "Multi-band 2-port", 16.8, 65, 9.5, (790, 960), 14, 2⟩,
  ⟨"amp-hp-mimo", "Amphenol", "High-port (22) MIMO", 18.4, 65, 6.5, (698, 2690), 52, 22⟩,
  ⟨"amp-6888", "Amphenol", "6888600 (Hex)", 17.2, 65, 7.0, (698, 2170), 20.2, 6⟩,
  ⟨"prose-2l8h", "PROSE Technologies", "2L8H Series", 17.9, 65, 7.0, (698, 2690), 38, 10⟩,
  ⟨"prose-3l12h", "PROSE Technologies", "3L12H Series", 18.5, 65, 6.5, (698, 2690), 46, 15⟩,
  ⟨"cict-mp", "CICT Mobile", "Multi-port Panel", 18.1, 65, 7.2, (1710, 2690), 24, 12⟩,
  ⟨"tongyu-wb", "Tongyu Communication", "Wideband Base Station", 17.5, 65, 7.5, (698, 2690), 21, 6⟩,
  ⟨"tongyu-tqx", "Tongyu Communication", "TQX-182018-00", 18.0, 65, 6.5, (1710, 2170), 19, 6⟩,
  ⟨"n-ipaa", "Nokia", "IPAA+ Interleaved", 24.8, 14, 6, (3400, 3800), 55, 64⟩,
  ⟨"n-pass", "Nokia", "Passive Panel", 18.0, 65, 7.0, (698, 2690), 23, 8⟩,
  ⟨"n-aeqa", "Nokia", "AEQA Massive MIMO", 25.0, 15, 5, (3400, 3800), 45, 64⟩,
  ⟨"cs-sector", "CommScope", "Sector Panel (5G)", 24.0, 15, 6, (3300, 3800), 29, 32⟩,
  ⟨"cs-sbnhh", "CommScope", "SBNHH-1D65B", 18.2, 65, 7.2, (698, 2360), 18.4, 6⟩,
  ⟨"andrew-multibeam", "Andrew (CommScope)", "Multibeam Antenna", 21.5, 33, 7.0, (1710, 2170), 25, 4⟩,
  ⟨"andrew-sector", "Andrew (CommScope)", "High Capacity Sector", 19.0, 45, 7.5, (1710, 2690), 18, 4⟩,
  ⟨"rfs-macro", "RFS", "Macro Panel Models", 17.6, 65, 8.0, (698, 2170), 20, 4⟩,
  ⟨"rfs-apx", "RFS", "APXVAARR24_43", 16.1, 65, 12.1, (617, 2360), 58.0, 14⟩,
  ⟨"k-legacy", "Kathrein", "Legacy Panel Models", 16.0, 65, 12.0, (880, 960), 15, 2⟩,
  ⟨"k-80010", "Kathrein", "80010865 (V-Pol)", 16.5, 65, 11, (790, 960), 19.5, 2⟩,
  ⟨"zte-sector", "ZTE", "Base Station Sector", 18.0, 65, 7.0, (1710, 2690), 21, 8⟩,
  ⟨"zte-mimo", "ZTE", "Massive MIMO 5G", 25.2, 12, 5, (3400, 3600), 42, 64⟩,
  ⟨"jma-x7", "JMA Wireless", "X7CAP-665-2", 18.0, 65, 9.7, (698, 2690), 21.0, 8⟩,
  ⟨"jma-small", "JMA Wireless", "Small Cell Cantenna", 10.0, 360, 12, (1710, 2170), 10, 4⟩,
  ⟨"rosen-bt", "Rosenberger", "BT-32-65-02-D", 18.4, 64, 7.5, (1710, 2690), 22.5, 12⟩,
  ⟨"rosen-cband", "Rosenberger", "4T4R C-Band", 21.0, 60, 6.5, (3300, 4200), 15, 4⟩,
  ⟨"cx-high", "CellMax", "High Efficiency 120410", 21.0, 65, 4.8, (1710, 2170), 28.0, 4⟩,
  ⟨"cx-macro", "CellMax", "14-Port Macro", 19.5, 65, 6.5, (698, 2690), 62, 14⟩,
  ⟨"h-a19", "Huawei", "A194518R0", 18.0, 65, 7.2, (1710, 2170), 19, 2⟩,
  ⟨"e-air-2488", "Ericsson", "AIR 2488", 16.5, 65, 9, (1800, 2100), 22, 8⟩,
  ⟨"n-awhf", "Nokia", "AWHF (B28)", 15.5, 65, 12, (700, 800), 20, 4⟩,
  ⟨"c-rvv", "CommScope", "RVV-65B-R3", 17.0, 65, 9.5, (694, 2690), 26.3, 6⟩,
  ⟨"k-80010735", "Kathrein", "80010735", 17.2, 65, 9.5, (698, 960), 18, 2⟩,
  ⟨"prose-1", "PROSE Technologies", "Small Cell Omni", 8.0, 360, 20, (1710, 2690), 4, 2⟩,
  ⟨"cict-2", "CICT Mobile", "TDD 8T8R", 17.0, 65, 7.5, (2300, 2600), 18, 8⟩,
  ⟨"tongyu-3", "Tongyu Communication", "High Gain 2.6G", 20.0, 33, 6.0, (2500, 2690), 17, 4⟩,
  ⟨"zte-4", "ZTE", "L-Band Sector", 17.5, 65, 8.0, (1400, 1500), 19, 4⟩,
  ⟨"rfs-5", "RFS", "APXVLL13-C", 15.0, 65, 15, (698, 894), 12, 2⟩,
  ⟨"andrew-5", "Andrew (CommScope)", "Stadium High Gain", 23.0, 30, 30, (1710, 2690), 14, 2⟩]

/-! ## RF engine (src/services/rfEngine.ts) -/

def LIGHT_SPEED : ℝ := 299792458

def EARTH_RADIUS_KM : ℝ := 6371

def MAX_EFFECTIVE_RANGE_KM : ℝ := 12.0

/-- Fast approximate distance squared in degrees. -/
def getQuickDistSq (lat1 lng1 lat2 lng2 : ℝ) : ℝ :=
  (lat1 - lat2) * (lat1 - lat2) + (lng1 - lng2) * (lng1 - lng2)

/-- Elevation engine (synthetic topography). -/
def getSyntheticElevation (lat lng : ℝ) : ℝ :=
  Real.sin (lat * 800) * 45 + Real.cos (lng * 800) * 45 +
    Real.sin (lat * 5000 + lng * 3000) * 12

/-- Urban clutter loss model. -/
def getUrbanClutterLoss (lat lng : ℝ) : ℝ :=
  if |Real.sin (lat * 7241)| < 0.3 ∧ |Real.sin (lng * 7122)| < 0.3 then 30
  else if |Real.sin (lat * 7241)| < 0.7 ∧ |Real.sin (lng * 7122)| < 0.7 then 15
  else 0

/-- Knife-edge diffraction loss. -/
def calculateDiffractionLoss (v : ℝ) : ℝ :=
  if v ≤ -0.78 then 0
  else 6.9 + 20 * Real.logb 10 (Real.sqrt ((v - 0.1) ^ 2 + 1) + v - 0.1)

/-- Hata propagation model. -/
def calculateHata (distKm freqMhz hb hm : ℝ) : ℝ :=
  if distKm < 0.01 then
    32.44 + 20 * Real.logb 10 (jsOr distKm 0.01) + 20 * Real.logb 10 freqMhz
  else
    69.55 + 26.16 * Real.logb 10 freqMhz - 13.82 * Real.logb 10 hb -
      ((1.1 * Real.logb 10 freqMhz - 0.7) * hm - (1.56 * Real.logb 10 freqMhz - 0.8)) +
      (44.9 - 6.55 * Real.logb 10 hb) * Real.logb 10 distKm

/-- The haversine `a` parameter computed inside `calculateRSRP`. -/
def havParam (lat1 lng1 lat2 lng2 : ℝ) : ℝ :=
  Real.sin ((lat2 - lat1) * (Real.pi / 180) / 2) ^ 2 +
    Real.cos (lat1 * (Real.pi / 180)) * Real.cos (lat2 * (Real.pi / 180)) *
      Real.sin ((lng2 - lng1) * (Real.pi / 180) / 2) ^ 2

/-- The great-circle distance (km) computed inside `calculateRSRP`. -/
def haversineKm (lat1 lng1 lat2 lng2 : ℝ) : ℝ :=
  EARTH_RADIUS_KM * 2 *
    atan2 (Real.sqrt (havParam lat1 lng1 lat2 lng2)) (Real.sqrt (1 - havParam lat1 lng1 lat2 lng2))

/-- The bearing (degrees in `[0, 360)`) computed inside `calculateRSRP`. -/
def bearingDeg (lat1 lng1 lat2 lng2 : ℝ) : ℝ :=
  jsMod
    (atan2 (Real.sin ((lng2 - lng1) * (Real.pi / 180)) * Real.cos (lat2 * (Real.pi / 180)))
        (Real.cos (lat1 * (Real.pi / 180)) * Real.sin (lat2 * (Real.pi / 180)) -
          Real.sin (lat1 * (Real.pi / 180)) * Real.cos (lat2 * (Real.pi / 180)) *
            Real.cos ((lng2 - lng1) * (Real.pi / 180))) * 180 / Real.pi + 360) 360

/-- Horizontal pattern loss of `calculateRSRP`, as a function of the bearing. -/
def horizLossOf (ant : AntennaModel) (sector : Sector) (angleDeg : ℝ) : ℝ :=
  min 35 (12 * (|jsMod (angleDeg - sector.azimuth + 180) 360 - 180| /
    (ant.horizontalBeamwidth / 2)) ^ 2)

/-- Vertical pattern loss of `calculateRSRP`, as a function of the distance in meters. -/
def vertLossOf (site : Site) (ant : AntennaModel) (sector : Sector) (distM : ℝ) : ℝ :=
  min 25 (12 * (|atan2 (jsOr sector.heightM site.towerHeightM - 1.5) distM * 180 / Real.pi -
    (jsOr sector.mechanicalTilt 0 + jsOr sector.electricalTilt 0)| /
      (ant.verticalBeamwidth / 2)) ^ 2)

/-- Combined antenna pattern gain of `calculateRSRP` (clamped at the 35 dB
front-to-back ratio). -/
def gainPatternOf (site : Site) (sector : Sector) (ant : AntennaModel) (tlat tlng : ℝ) : ℝ :=
  max (-35)
    (-(horizLossOf ant sector (bearingDeg site.lat site.lng tlat tlng) +
       vertLossOf site ant sector (haversineKm site.lat site.lng tlat tlng * 1000)))

/-- Fresnel diffraction parameter at path sample `i` of 4 inside `calculateRSRP`. -/
def vFresnel (site : Site) (sector : Sector) (tlat tlng : ℝ) (i : ℕ) : ℝ :=
  let step : ℝ := (i : ℝ) / 5
  let distM := haversineKm site.lat site.lng tlat tlng * 1000
  let txElev := getSyntheticElevation site.lat site.lng + jsOr sector.heightM site.towerHeightM
  let rxElev := getSyntheticElevation tlat tlng + 1.5
  let tHeight := getSyntheticElevation (site.lat + (tlat - site.lat) * step)
    (site.lng + (tlng - site.lng) * step)
  let losHeight := txElev + (rxElev - txElev) * step
  let d1 := distM * step
  let d2 := distM * (1 - step)
  let wavelength := LIGHT_SPEED / (sector.frequencyMhz * 1e6)
  (tHeight - losHeight) * Real.sqrt ((2 * (d1 + d2)) / (wavelength * d1 * d2))

/-- Terrain diffraction loss of `calculateRSRP` (zero with terrain mode off). -/
def extraLossOf (site : Site) (sector : Sector) (tlat tlng : ℝ) (useTerrain : Bool) : ℝ :=
  if useTerrain then
    calculateDiffractionLoss
      (max (max (max (vFresnel site sector tlat tlng 1) (vFresnel site sector tlat tlng 2))
        (vFresnel site sector tlat tlng 3)) (vFresnel site sector tlat tlng 4))
  else 0

/-- Core RSRP calculation engine. -/
def calculateRSRP (site : Site) (sector : Sector) (tlat tlng : ℝ) (useTerrain : Bool) : ℝ :=
  if getQuickDistSq site.lat site.lng tlat tlng > 0.015 then -150
  else
    match ANTENNA_LIBRARY.find? (fun a => a.id == sector.antennaId) with
    | none => -140
    | some ant =>
      if haversineKm site.lat site.lng tlat tlng > MAX_EFFECTIVE_RANGE_KM then -150
      else
        jsOr sector.txPowerDbm 43 + ant.gainDbi + gainPatternOf site sector ant tlat tlng -
          calculateHata (haversineKm site.lat site.lng tlat tlng) sector.frequencyMhz
            (jsOr sector.heightM site.towerHeightM) 1.5 -
          getUrbanClutterLoss tlat tlng - extraLossOf site sector tlat tlng useTerrain

/-- Best-server RSRP across all site/sector pairs at a point. -/
def getBestRSRPAtPoint (sites : List Site) (lat lng : ℝ) (useTerrain : Bool) : ℝ :=
  sites.foldl (fun best site =>
    if getQuickDistSq site.lat site.lng lat lng > 0.015 then best
    else site.sectors.foldl (fun b sec =>
      if calculateRSRP site sec lat lng useTerrain > b then
        calculateRSRP site sec lat lng useTerrain
      else b) best) (-150)

/-- Synthetic traffic density in `[0, 100]`. -/
def getSyntheticHumanTraffic (lat lng : ℝ) : ℝ :=
  min 100 (|Real.sin (lat * 1500) * Real.cos (lng * 1500)| * 60 +
    |Real.sin (lat * 400) * Real.cos (lng * 400)| * 40)

/-- The strict-improvement fold of the 12-bearing probe of `optimizeSiteParameters`
(`if (rsrp < minRsrp)`): each element is `(bearing, rsrp)`. -/
def selectWorst : List (ℝ × ℝ) → ℝ × ℝ → ℝ × ℝ
  | [], best => best
  | p :: rest, best => selectWorst rest (if p.2 < best.2 then p else best)

/-- The probed `(bearing, ambient best RSRP)` pairs of `optimizeSiteParameters`. -/
def azimuthProbes (site : Site) (allSites : List Site) (useTerrain : Bool) : List (ℝ × ℝ) :=
  (List.range 12).map (fun i =>
    (((i : ℝ) * 360) / 12,
      getBestRSRPAtPoint (allSites.filter (fun s => !(s.id == site.id)))
        (site.lat + 0.005 * Real.cos (((i : ℝ) * 360) / 12 * (Real.pi / 180)))
        (site.lng + 0.005 * Real.sin (((i : ℝ) * 360) / 12 * (Real.pi / 180))) useTerrain))

/-- The bearing with the weakest ambient coverage (`worstAzimuth`; the JS loop
seeds `minRsrp = Infinity`, so the first probe always replaces the seed). -/
def worstAzimuthOf (site : Site) (allSites : List Site) (useTerrain : Bool) : ℝ :=
  match azimuthProbes site allSites useTerrain with
  | [] => 0
  | p :: ps => (selectWorst ps p).1

/-- The tilt computed per sector by `optimizeSiteParameters`. -/
def targetTiltOf (site : Site) : ℝ :=
  (if getSyntheticHumanTraffic site.lat site.lng > 70 then 8
   else if getSyntheticHumanTraffic site.lat site.lng > 40 then 6 else 4) +
  (if site.towerHeightM > 40 then 2 else 0)

/-- The `forEach((s, i) => ...)` mutation loop of `optimizeSiteParameters`,
as an index-carrying recursion. -/
def optimizedSectorsFrom (site : Site) (worst spacing : ℝ) : ℕ → List Sector → List Sector
  | _, [] => []
  | i, s :: rest =>
    { s with
      azimuth := jsRound (jsMod (worst + (i : ℝ) * spacing) 360)
      electricalTilt := targetTiltOf site
      mechanicalTilt := 0 } :: optimizedSectorsFrom site worst spacing (i + 1) rest

/-- Intelligent azimuth optimization. -/
def optimizeSiteParameters (site : Site) (allSites : List Site) (useTerrain : Bool) :
    List Sector :=
  if site.sectors.length = 0 then []
  else
    optimizedSectorsFrom site (worstAzimuthOf site allSites useTerrain)
      (360 / (site.sectors.length : ℝ)) 0 site.sectors

/-- The minimum squared degree distance from a point to the working site list
(`minD2`; the JS loop seeds with `Infinity`, and the list is never empty when
the loop runs, so the first site always replaces the seed). -/
def minD2Of (cs : List Site) (lat lng : ℝ) : ℝ :=
  match cs with
  | [] => 0
  | c :: rest =>
    rest.foldl (fun m sc => min m ((lat - sc.lat) ^ 2 + (lng - sc.lng) ^ 2))
      ((lat - c.lat) ^ 2 + (lng - c.lng) ^ 2)

/-- The mesh-continuity bonus of `findOptimalNextSites`. -/
def meshContinuityAt (cs : List Site) (lat lng : ℝ) : ℝ :=
  if -118 < getBestRSRPAtPoint cs lat lng true ∧ getBestRSRPAtPoint cs lat lng true < -100 then
    120 - |getBestRSRPAtPoint cs lat lng true + 109|
  else 0

/-- The composite score of one grid point of `findOptimalNextSites`. -/
def scoreAt (cs : List Site) (lat lng : ℝ) : ℝ :=
  (max 0 (-100 - getBestRSRPAtPoint cs lat lng true) * 1.5 +
    meshContinuityAt cs lat lng * 2.0 +
    (if 400 ≤ Real.sqrt (minD2Of cs lat lng) * 111000 ∧
        Real.sqrt (minD2Of cs lat lng) * 111000 ≤ 2000 then
      100 - |Real.sqrt (minD2Of cs lat lng) * 111000 - 800| / 12
     else 0) * 1.8 +
    getSyntheticHumanTraffic lat lng * 0.4) *
  (if Real.sqrt (minD2Of cs lat lng) * 111000 < 400 then 0 else 1) *
  (if 3000 < Real.sqrt (minD2Of cs lat lng) * 111000 then 0.2 else 1.0)

/-- One scored grid candidate of `findOptimalNextSites`. -/
def candidateAt (cs : List Site) (lat lng : ℝ) : GridCandidate :=
  ⟨lat, lng, scoreAt cs lat lng, getSyntheticHumanTraffic lat lng, meshContinuityAt cs lat lng⟩

/-- The latitude of grid row `i` (46 rows, `steps = 45`). -/
def gridLat (minLat maxLat : ℝ) (i : ℕ) : ℝ := minLat + (i : ℝ) * ((maxLat - minLat) / 45)

/-- The longitude of grid column `j`. -/
def gridLng (minLng maxLng : ℝ) (j : ℕ) : ℝ := minLng + (j : ℝ) * ((maxLng - minLng) / 45)

/-- All 46 x 46 scored grid candidates, in scan order (`i` outer, `j` inner). -/
def gridCandidates (cs : List Site) (minLat maxLat minLng maxLng : ℝ) : List GridCandidate :=
  (List.range 46).flatMap (fun i => (List.range 46).map (fun j =>
    candidateAt cs (gridLat minLat maxLat i) (gridLng minLng maxLng j)))

/-- The strict-improvement argmax of `findOptimalNextSites`
(`if (!bestCandidate || score > bestCandidate.score)`). -/
def selectBest : List GridCandidate → Option GridCandidate → Option GridCandidate
  | [], acc => acc
  | c :: rest, none => selectBest rest (some c)
  | c :: rest, some b => selectBest rest (some (if c.score > b.score then c else b))

/-- The antenna id the synthesized expansion sectors reference (`ANTENNA_LIBRARY[0].id`). -/
def antennaZeroId : String :=
  match ANTENNA_LIBRARY with
  | [] => ""
  | a :: _ => a.id

/-- One synthesized expansion sector. -/
def expansionSector (sid : String) (az : ℝ) : Sector :=
  ⟨sid, antennaZeroId, az, 0, 6, 44, 1800, 30⟩

/-- The temporary 3-sector site synthesized at an accepted candidate. -/
def tempSiteAt (nSug srun : ℕ) (lat lng : ℝ) : Site :=
  ⟨"sug-" ++ toString nSug, "Expansion Node " ++ toString (srun + 1), lat, lng, 30,
    TowerType.monopole,
    [expansionSector "s1" 0, expansionSector "s2" 120, expansionSector "s3" 240],
    SiteStatus.planned⟩

/-- One iteration of `findOptimalNextSites`: score the grid against the working
site list, accept the argmax, synthesize and optimize its sectors, append. -/
def placeStep (minLat maxLat minLng maxLng : ℝ) (srun : ℕ)
    (st : List Site × List SiteSuggestion) : List Site × List SiteSuggestion :=
  match selectBest (gridCandidates st.1 minLat maxLat minLng maxLng) none with
  | none => st
  | some b =>
    (st.1 ++ [{ tempSiteAt st.2.length srun b.lat b.lng with
        sectors := optimizeSiteParameters (tempSiteAt st.2.length srun b.lat b.lng) st.1 true }],
     st.2 ++ [⟨b.lat, b.lng, "Proximity Expansion / Handover Stitching",
        optimizeSiteParameters (tempSiteAt st.2.length srun b.lat b.lng) st.1 true⟩])

/-- AI site search with neighbor proximity logic (first variant: 20 iterations,
search box padded by 0.12 degrees, 45 steps, no positive-score guard on the push). -/
def findOptimalNextSites (sites : List Site) : List SiteSuggestion :=
  match sites with
  | [] => []
  | s0 :: rest =>
    ((List.range 20).foldl
      (fun st srun =>
        placeStep ((rest.map Site.lat).foldl min s0.lat - 0.12)
          ((rest.map Site.lat).foldl max s0.lat + 0.12)
          ((rest.map Site.lng).foldl min s0.lng - 0.12)
          ((rest.map Site.lng).foldl max s0.lng + 0.12) srun st)
      (sites, [])).2

/-- One computed signal entry of `getPhoneSignalProfile`. -/
structure SignalEntry where
  siteId : String
  siteName : String
  sectorId : String
  rsrp : ℝ

/-- All signals the phone profile computes (sites within the 0.05 prefilter). -/
def allSignalsOf (sites : List Site) (lat lng : ℝ) (useTerrain : Bool) : List SignalEntry :=
  sites.flatMap (fun site =>
    if getQuickDistSq site.lat site.lng lat lng < 0.05 then
      site.sectors.map (fun sec =>
        ⟨site.id, site.name, sec.id, calculateRSRP site sec lat lng useTerrain⟩)
    else [])

/-- Descending-RSRP order (the JS comparator `(a, b) => b.rsrp - a.rsrp`). -/
def signalDesc (a b : SignalEntry) : Prop := b.rsrp ≤ a.rsrp

instance : DecidableRel signalDesc := fun a b => Real.decidableLE b.rsrp a.rsrp

instance : IsTotal SignalEntry signalDesc := ⟨fun a b => le_total b.rsrp a.rsrp⟩

instance : IsTrans SignalEntry signalDesc := ⟨fun _ _ _ h1 h2 => le_trans h2 h1⟩

/-- The signal list sorted descending by RSRP (JS `Array.sort` is stable, as is
insertion sort). -/
def sortedSignalsOf (sites : List Site) (lat lng : ℝ) (useTerrain : Bool) : List SignalEntry :=
  List.insertionSort signalDesc (allSignalsOf sites lat lng useTerrain)

/-- Serving-cell selector: ranked signals, serving cell, SINR proxy, neighbors. -/
def getPhoneSignalProfile (sites : List Site) (lat lng : ℝ) (useTerrain : Bool) : PhoneProfile :=
  match sortedSignalsOf sites lat lng useTerrain with
  | [] => ⟨lat, lng, -150, -20, none, none, []⟩
  | s :: rest =>
    ⟨lat, lng, s.rsrp, min 30 (s.rsrp + 105), some s.sectorId, some s.siteName,
      (rest.take 3).map (fun x => (x.siteName, x.rsrp))⟩

/-! ## Concrete scenario data used by witnesses and counterexamples -/

/-- The first catalog antenna (the one the fixture sectors reference). -/
def antAmb : AntennaModel :=
  ⟨"h-amb4519", "Huawei", "AMB4519R13v06", 18.5, 65, 6.5, (690, 2690), 35, 14⟩

/-- A sector at the origin site: catalog antenna, azimuth 0, electrical tilt 90,
43 dBm, 100 MHz, mounted at 30 m. -/
def secOrigin : Sector := ⟨"sA", "h-amb4519", 0, 0, 90, 43, 100, 30⟩

/-- A site at (0, 0) with one sector. -/
def siteOrigin : Site :=
  ⟨"A", "Site A", 0, 0, 30, TowerType.monopole, [secOrigin], SiteStatus.active⟩

/-- A sector with a hugely negative transmit power. -/
def secNegTx : Sector := ⟨"sB", "h-amb4519", 0, 0, 0, -300, 1800, 30⟩

/-- A site at (1, 1), far outside the quick pre-filter of a probe at the origin. -/
def siteFar : Site :=
  ⟨"B", "Site B", 1, 1, 30, TowerType.monopole, [secNegTx], SiteStatus.active⟩

/-- A sector whose transmit power is the JavaScript-falsy 0 (the code substitutes 43). -/
def secZeroTx : Sector := ⟨"sC", "h-amb4519", 0, 0, 90, 0, 100, 30⟩

/-- A sector with a 1 MHz carrier (the near-field Hata term is negative there). -/
def secFreqOne : Sector := ⟨"sD", "h-amb4519", 0, 0, 90, 43, 1, 30⟩

/-- A site placed where the synthetic clutter classifier yields the open-area
0 dB loss: `sin(lat * 7241) = sin(lng * 7122) = 1`. -/
def siteClutterFree : Site :=
  ⟨"C", "Site C", Real.pi / 14482, Real.pi / 14244, 30, TowerType.monopole,
    [secZeroTx], SiteStatus.active⟩

/-- A sector pointed due south (azimuth 180), no tilt, 43 dBm, 1800 MHz. -/
def secSouth : Sector := ⟨"sE", "h-amb4519", 180, 0, 0, 43, 1800, 30⟩

/-- A site 0.105 degrees south of the dense-clutter latitude `242 * pi / 7241`. -/
def siteBelow : Site :=
  ⟨"E", "Site E", 242 * Real.pi / 7241 - 0.105, 0, 30, TowerType.monopole,
    [secSouth], SiteStatus.active⟩

/-- A sector referencing an antenna id absent from the catalog. -/
def secGhost : Sector := ⟨"sG", "ghost-antenna", 0, 0, 0, 43, 1800, 30⟩

/-- A sector pointed due north (azimuth 0), no tilt, 43 dBm, 1800 MHz. -/
def secNorth : Sector := ⟨"sF", "h-amb4519", 0, 0, 0, 43, 1800, 30⟩

/-- A site 14 dense-clutter latitude units south of the equator, so that two
due-north targets at `pi/7241` and `2.5 * pi/7241` sit at distances with the
exact ratio 1.1. -/
def siteSouthOf : Site :=
  ⟨"F", "Site F", -(14 * Real.pi / 7241), 0, 30, TowerType.monopole,
    [secNorth], SiteStatus.active⟩

/-- A site at (0.2, 0): between the phone-profile prefilter radius and the
RSRP prefilter radius for a probe at the origin. -/
def siteMid : Site :=
  ⟨"M", "Site M", 0.2, 0, 30, TowerType.monopole, [secNorth], SiteStatus.active⟩

/-- A site with no sectors. -/
def siteNoSectors : Site :=
  ⟨"N", "Site N", 0, 0, 30, TowerType.monopole, [], SiteStatus.active⟩

end

/-- The invariant carried through the 20 placement iterations of
`findOptimalNextSites`: the working site list extends the input list, and every
accepted suggestion is a grid point at least the 400 m threshold (in squared
degrees) from every input site. -/
def c3Inv (sites : List Site) (mLat MLat mLng MLng : ℝ)
    (st : List Site × List SiteSuggestion) : Prop :=
  (∃ added, st.1 = sites ++ added) ∧
  (∀ c ∈ st.2, ∃ i j : ℕ, i < 46 ∧ j < 46 ∧
    c.lat = gridLat mLat MLat i ∧ c.lng = gridLng mLng MLng j) ∧
  (∀ c ∈ st.2, ∀ t ∈ sites, (400 / 111000 : ℝ) ^ 2 ≤
    (c.lat - t.lat) ^ 2 + (c.lng - t.lng) ^ 2)

/-! ## Basic evaluation lemmas for the JavaScript helpers -/

theorem jsOr_zero (b : ℝ) : jsOr 0 b = b := if_pos rfl

theorem jsOr_of_ne {a : ℝ} (b : ℝ) (h : a ≠ 0) : jsOr a b = a := if_neg h

theorem jsTrunc_one : jsTrunc 1 = 1 := by
  rw [jsTrunc, if_pos (by norm_num)]
  norm_num

theorem jsTrunc_of_unit {x : ℝ} (h0 : 0 ≤ x) (h1 : x < 1) : jsTrunc x = 0 := by
  rw [jsTrunc, if_pos h0]
  norm_num
  exact ⟨h0, h1⟩

theorem jsMod_self {y : ℝ} (h : y ≠ 0) : jsMod y y = 0 := by
  rw [jsMod, div_self h, jsTrunc_one]
  ring

theorem jsMod_of_lt {x y : ℝ} (h0 : 0 ≤ x) (h1 : x < y) : jsMod x y = x := by
  have hy : 0 < y := lt_of_le_of_lt h0 h1
  rw [jsMod, jsTrunc_of_unit (by positivity) (by rw [div_lt_one hy]; exact h1)]
  ring

theorem atan2_zero_of_pos {x : ℝ} (h : 0 < x) : atan2 0 x = 0 := by
  rw [atan2, if_pos h, zero_div, Real.arctan_zero]

theorem atan2_pos_zero {y : ℝ} (h : 0 < y) : atan2 y 0 = Real.pi / 2 := by
  rw [atan2, if_neg (lt_irrefl 0), if_neg (lt_irrefl 0), if_pos h]

theorem atan2_zero_zero : atan2 0 0 = 0 := by
  rw [atan2, if_neg (lt_irrefl 0), if_neg (lt_irrefl 0), if_neg (lt_irrefl 0),
    if_neg (lt_irrefl 0)]

theorem atan2_sin_cos {u : ℝ} (h1 : -(Real.pi / 2) < u) (h2 : u < Real.pi / 2) :
    atan2 (Real.sin u) (Real.cos u) = u := by
  have hcos : 0 < Real.cos u := Real.cos_pos_of_mem_Ioo ⟨h1, h2⟩
  rw [atan2, if_pos hcos, ← Real.tan_eq_sin_div_cos, Real.arctan_tan h1 h2]

/-! ## Values of the base-10 logarithm -/

theorem logb_ten_ten : Real.logb 10 10 = 1 := Real.logb_self_eq_one (by norm_num)

theorem logb_ten_pow (n : ℕ) : Real.logb 10 ((10 : ℝ) ^ n) = n := by
  rw [Real.logb_pow, logb_ten_ten, mul_one]

theorem logb_ten_hundred : Real.logb 10 100 = 2 := by
  have h : (100 : ℝ) = 10 ^ (2 : ℕ) := by norm_num
  rw [h, logb_ten_pow]
  norm_num

theorem logb_ten_thousand : Real.logb 10 1000 = 3 := by
  have h : (1000 : ℝ) = 10 ^ (3 : ℕ) := by norm_num
  rw [h, logb_ten_pow]
  norm_num

theorem logb_ten_centi : Real.logb 10 0.01 = -2 := by
  have h : (0.01 : ℝ) = 1 / 100 := by norm_num
  rw [h, Real.logb_div one_ne_zero (by norm_num), Real.logb_one, logb_ten_hundred]
  norm_num

theorem logb_ten_mono {x y : ℝ} (hx : 0 < x) (hxy : x ≤ y) :
    Real.logb 10 x ≤ Real.logb 10 y :=
  Real.logb_le_logb_of_le (by norm_num) hx hxy

theorem logb_ten_thirty_bounds : 1 ≤ Real.logb 10 30 ∧ Real.logb 10 30 ≤ 2 := by
  constructor
  · have := logb_ten_mono (x := 10) (y := 30) (by norm_num) (by norm_num)
    rwa [logb_ten_ten] at this
  · have := logb_ten_mono (x := 30) (y := 100) (by norm_num) (by norm_num)
    rwa [logb_ten_hundred] at this

theorem logb_ten_1800_bounds : 3 ≤ Real.logb 10 1800 ∧ Real.logb 10 1800 ≤ 4 := by
  constructor
  · have := logb_ten_mono (x := 1000) (y := 1800) (by norm_num) (by norm_num)
    rwa [logb_ten_thousand] at this
  · have h4 : Real.logb 10 ((10 : ℝ) ^ (4 : ℕ)) = 4 := by rw [logb_ten_pow]; norm_num
    have := logb_ten_mono (x := 1800) (y := 10 ^ (4 : ℕ)) (by norm_num) (by norm_num)
    rwa [h4] at this

theorem two_lt_log_ten : 2 < Real.log 10 := by
  have hexp : Real.exp 2 < 10 := by
    have h := Real.exp_one_lt_d9
    have h2 : Real.exp 2 = Real.exp 1 * Real.exp 1 := by
      rw [← Real.exp_add]; norm_num
    nlinarith [Real.exp_pos 1]
  exact (Real.lt_log_iff_exp_lt (by norm_num)).2 hexp

theorem logb_ten_eleven_tenths : 0 ≤ Real.logb 10 1.1 ∧ Real.logb 10 1.1 ≤ 0.05 := by
  have hlog : Real.log 1.1 ≤ 0.1 := by
    have := Real.log_le_sub_one_of_pos (x := 1.1) (by norm_num)
    linarith
  have hnn : 0 ≤ Real.log 1.1 := Real.log_nonneg (by norm_num)
  have hten := two_lt_log_ten
  constructor
  · exact Real.logb_nonneg (by norm_num) (by norm_num)
  · rw [Real.logb]
    rw [div_le_iff₀ (by linarith)]
    nlinarith

/-! ## Geometry of the haversine distance and bearing at special targets -/

theorem havParam_due_north (s t L : ℝ) :
    havParam s L t L = Real.sin ((t - s) * (Real.pi / 180) / 2) ^ 2 := by
  rw [havParam, sub_self, zero_mul, zero_div, Real.sin_zero]
  ring

theorem haversineKm_due_north {s t : ℝ} (L : ℝ) (h0 : s ≤ t) (h1 : t - s < 180) :
    haversineKm s L t L = 6371 * ((t - s) * (Real.pi / 180)) := by
  have hpi := Real.pi_pos
  have hts : 0 ≤ t - s := by linarith
  set u := (t - s) * (Real.pi / 180) / 2 with hu
  have hu0 : 0 ≤ u := by positivity
  have hu2 : u < Real.pi / 2 := by
    rw [hu]
    nlinarith
  have hsin : 0 ≤ Real.sin u := Real.sin_nonneg_of_nonneg_of_le_pi hu0 (by linarith)
  have hcos : 0 < Real.cos u := Real.cos_pos_of_mem_Ioo ⟨by linarith, hu2⟩
  have hpar : havParam s L t L = Real.sin u ^ 2 := havParam_due_north s t L
  have hsq : (1 : ℝ) - Real.sin u ^ 2 = Real.cos u ^ 2 := by
    have := Real.sin_sq_add_cos_sq u
    linarith
  rw [haversineKm, hpar, hsq, Real.sqrt_sq hsin, Real.sqrt_sq hcos.le,
    atan2_sin_cos (by linarith) hu2, EARTH_RADIUS_KM, hu]
  ring

theorem haversineKm_self (a b : ℝ) : haversineKm a b a b = 0 := by
  have hpar : havParam a b a b = 0 := by
    rw [havParam, sub_self, sub_self, zero_mul, zero_div, Real.sin_zero]
    ring
  rw [haversineKm, hpar, Real.sqrt_zero, sub_zero, Real.sqrt_one,
    atan2_zero_of_pos (by norm_num)]
  ring

theorem bearingDeg_due_north {s t : ℝ} (L : ℝ) (h0 : s < t) (h1 : t - s < 180) :
    bearingDeg s L t L = 0 := by
  have hpi := Real.pi_pos
  rw [bearingDeg, sub_self, zero_mul, Real.sin_zero, Real.cos_zero, zero_mul, mul_one]
  have hx : Real.cos (s * (Real.pi / 180)) * Real.sin (t * (Real.pi / 180)) -
      Real.sin (s * (Real.pi / 180)) * Real.cos (t * (Real.pi / 180)) =
      Real.sin (t * (Real.pi / 180) - s * (Real.pi / 180)) := by
    rw [Real.sin_sub]
    ring
  have hxpos : 0 < Real.sin (t * (Real.pi / 180) - s * (Real.pi / 180)) := by
    apply Real.sin_pos_of_pos_of_lt_pi
    · nlinarith
    · nlinarith
  rw [hx, atan2_zero_of_pos hxpos, zero_mul, zero_div, zero_add,
    jsMod_self (by norm_num)]

theorem bearingDeg_self (a b : ℝ) : bearingDeg a b a b = 0 := by
  rw [bearingDeg, sub_self, zero_mul, Real.sin_zero, Real.cos_zero, zero_mul, mul_one]
  have hx : Real.cos (a * (Real.pi / 180)) * Real.sin (a * (Real.pi / 180)) -
      Real.sin (a * (Real.pi / 180)) * Real.cos (a * (Real.pi / 180)) = 0 := by ring
  rw [hx, atan2_zero_zero, zero_mul, zero_div, zero_add, jsMod_self (by norm_num)]

/-! ## Branch lemmas for `calculateRSRP` -/

theorem calculateRSRP_of_far {site : Site} {sec : Sector} {tlat tlng : ℝ} (u : Bool)
    (h : getQuickDistSq site.lat site.lng tlat tlng > 0.015) :
    calculateRSRP site sec tlat tlng u = -150 := by
  rw [calculateRSRP, if_pos h]

theorem calculateRSRP_of_unknown_antenna {site : Site} {sec : Sector} {tlat tlng : ℝ} (u : Bool)
    (h1 : ¬ getQuickDistSq site.lat site.lng tlat tlng > 0.015)
    (h2 : ANTENNA_LIBRARY.find? (fun a => a.id == sec.antennaId) = none) :
    calculateRSRP site sec tlat tlng u = -140 := by
  rw [calculateRSRP, if_neg h1, h2]

theorem calculateRSRP_of_out_of_range {site : Site} {sec : Sector} {tlat tlng : ℝ} (u : Bool)
    {ant : AntennaModel}
    (h1 : ¬ getQuickDistSq site.lat site.lng tlat tlng > 0.015)
    (h2 : ANTENNA_LIBRARY.find? (fun a => a.id == sec.antennaId) = some ant)
    (h3 : haversineKm site.lat site.lng tlat tlng > MAX_EFFECTIVE_RANGE_KM) :
    calculateRSRP site sec tlat tlng u = -150 := by
  rw [calculateRSRP, if_neg h1, h2]
  exact if_pos h3

theorem calculateRSRP_eq_formula {site : Site} {sec : Sector} {tlat tlng : ℝ} (u : Bool)
    {ant : AntennaModel}
    (h1 : ¬ getQuickDistSq site.lat site.lng tlat tlng > 0.015)
    (h2 : ANTENNA_LIBRARY.find? (fun a => a.id == sec.antennaId) = some ant)
    (h3 : ¬ haversineKm site.lat site.lng tlat tlng > MAX_EFFECTIVE_RANGE_KM) :
    calculateRSRP site sec tlat tlng u =
      jsOr sec.txPowerDbm 43 + ant.gainDbi + gainPatternOf site sec ant tlat tlng -
        calculateHata (haversineKm site.lat site.lng tlat tlng) sec.frequencyMhz
          (jsOr sec.heightM site.towerHeightM) 1.5 -
        getUrbanClutterLoss tlat tlng - extraLossOf site sec tlat tlng u := by
  rw [calculateRSRP, if_neg h1, h2]
  exact if_neg h3

/-! ## Bounds on the pattern, clutter and path-loss components -/

theorem horizLossOf_nonneg (ant : AntennaModel) (sec : Sector) (ang : ℝ) :
    0 ≤ horizLossOf ant sec ang :=
  le_min (by norm_num) (by positivity)

theorem horizLossOf_le (ant : AntennaModel) (sec : Sector) (ang : ℝ) :
    horizLossOf ant sec ang ≤ 35 :=
  min_le_left _ _

theorem vertLossOf_nonneg (site : Site) (ant : AntennaModel) (sec : Sector) (d : ℝ) :
    0 ≤ vertLossOf site ant sec d :=
  le_min (by norm_num) (by positivity)

theorem vertLossOf_le (site : Site) (ant : AntennaModel) (sec : Sector) (d : ℝ) :
    vertLossOf site ant sec d ≤ 25 :=
  min_le_left _ _

theorem gainPatternOf_nonpos (site : Site) (sec : Sector) (ant : AntennaModel)
    (tlat tlng : ℝ) : gainPatternOf site sec ant tlat tlng ≤ 0 := by
  have h1 := horizLossOf_nonneg ant sec (bearingDeg site.lat site.lng tlat tlng)
  have h2 := vertLossOf_nonneg site ant sec (haversineKm site.lat site.lng tlat tlng * 1000)
  exact max_le (by norm_num) (by linarith)

theorem getUrbanClutterLoss_nonneg (lat lng : ℝ) : 0 ≤ getUrbanClutterLoss lat lng := by
  rw [getUrbanClutterLoss]
  split_ifs <;> norm_num

/-- With the pattern loss capped below the 35 dB ratio, the max is the plain sum. -/
theorem gainPatternOf_eq_of_le (site : Site) (sec : Sector) (ant : AntennaModel)
    (tlat tlng : ℝ)
    (h : horizLossOf ant sec (bearingDeg site.lat site.lng tlat tlng) +
      vertLossOf site ant sec (haversineKm site.lat site.lng tlat tlng * 1000) ≤ 35) :
    gainPatternOf site sec ant tlat tlng =
      -(horizLossOf ant sec (bearingDeg site.lat site.lng tlat tlng) +
        vertLossOf site ant sec (haversineKm site.lat site.lng tlat tlng * 1000)) :=
  max_eq_right (by linarith)

/-! ## The Hata model beyond the near field -/

theorem calculateHata_of_ge {d : ℝ} (f hb hm : ℝ) (h : 0.01 ≤ d) :
    calculateHata d f hb hm =
      69.55 + 26.16 * Real.logb 10 f - 13.82 * Real.logb 10 hb -
        ((1.1 * Real.logb 10 f - 0.7) * hm - (1.56 * Real.logb 10 f - 0.8)) +
        (44.9 - 6.55 * Real.logb 10 hb) * Real.logb 10 d := by
  rw [calculateHata, if_neg (not_lt.2 h)]

theorem calculateHata_sub {d1 d2 : ℝ} (f hb hm : ℝ) (h1 : 0.01 ≤ d1) (h2 : 0.01 ≤ d2) :
    calculateHata d2 f hb hm - calculateHata d1 f hb hm =
      (44.9 - 6.55 * Real.logb 10 hb) * (Real.logb 10 d2 - Real.logb 10 d1) := by
  rw [calculateHata_of_ge f hb hm h1, calculateHata_of_ge f hb hm h2]
  ring

theorem calculateHata_mono {d1 d2 : ℝ} (f hb hm : ℝ) (h1 : 0.01 ≤ d1) (hd : d1 ≤ d2)
    (hb6 : 6.55 * Real.logb 10 hb ≤ 44.9) :
    calculateHata d1 f hb hm ≤ calculateHata d2 f hb hm := by
  have hlog := logb_ten_mono (x := d1) (y := d2) (by linarith) hd
  have hsub := calculateHata_sub f hb hm h1 (le_trans h1 hd)
  nlinarith

/-! ## Catalog lookups -/

theorem find_antenna_amb :
    ANTENNA_LIBRARY.find? (fun a => a.id == "h-amb4519") = some antAmb := rfl

theorem find_antenna_ghost :
    ANTENNA_LIBRARY.find? (fun a => a.id == "ghost-antenna") = none := rfl

/-! ## Exact evaluation of the engine at the origin scenario -/

theorem clutter_origin : getUrbanClutterLoss (0 : ℝ) 0 = 30 := by
  rw [getUrbanClutterLoss, if_pos]
  rw [zero_mul, Real.sin_zero, abs_zero]
  norm_num

theorem pi_half_deg : Real.pi / 2 * 180 / Real.pi = 90 := by
  field_simp
  ring

theorem rsrp_origin_eval : calculateRSRP siteOrigin secOrigin 0 0 false = -0.94 := by
  have h1 : ¬ getQuickDistSq siteOrigin.lat siteOrigin.lng 0 0 > 0.015 := by
    norm_num [siteOrigin, getQuickDistSq]
  have h2 : ANTENNA_LIBRARY.find? (fun a => a.id == secOrigin.antennaId) = some antAmb :=
    find_antenna_amb
  have hdist : haversineKm siteOrigin.lat siteOrigin.lng 0 0 = 0 := haversineKm_self 0 0
  have h3 : ¬ haversineKm siteOrigin.lat siteOrigin.lng 0 0 > MAX_EFFECTIVE_RANGE_KM := by
    rw [hdist, MAX_EFFECTIVE_RANGE_KM]
    norm_num
  rw [calculateRSRP_eq_formula false h1 h2 h3]
  have hbear : bearingDeg siteOrigin.lat siteOrigin.lng 0 0 = 0 := bearingDeg_self 0 0
  have hhl : horizLossOf antAmb secOrigin (bearingDeg siteOrigin.lat siteOrigin.lng 0 0) = 0 := by
    rw [hbear, horizLossOf]
    have e0 : (0 : ℝ) - secOrigin.azimuth + 180 = 180 := by norm_num [secOrigin]
    rw [e0, jsMod_of_lt (by norm_num) (by norm_num)]
    norm_num
  have hvl : vertLossOf siteOrigin antAmb secOrigin
      (haversineKm siteOrigin.lat siteOrigin.lng 0 0 * 1000) = 0 := by
    rw [hdist, zero_mul, vertLossOf]
    have e1 : jsOr secOrigin.heightM siteOrigin.towerHeightM - 1.5 = 28.5 := by
      norm_num [secOrigin, siteOrigin, jsOr]
    have e2 : jsOr secOrigin.mechanicalTilt 0 + jsOr secOrigin.electricalTilt 0 = 90 := by
      norm_num [secOrigin, jsOr]
    rw [e1, e2, atan2_pos_zero (by norm_num), pi_half_deg]
    norm_num
  have hgp : gainPatternOf siteOrigin secOrigin antAmb 0 0 = 0 := by
    rw [gainPatternOf, hhl, hvl]
    norm_num
  have hhata : calculateHata (haversineKm siteOrigin.lat siteOrigin.lng 0 0)
      secOrigin.frequencyMhz (jsOr secOrigin.heightM siteOrigin.towerHeightM) 1.5 = 32.44 := by
    rw [hdist, calculateHata, if_pos (by norm_num : (0 : ℝ) < 0.01), jsOr_zero, logb_ten_centi]
    have e3 : secOrigin.frequencyMhz = (100 : ℝ) := rfl
    rw [e3, logb_ten_hundred]
    norm_num
  have htx : jsOr secOrigin.txPowerDbm 43 = 43 := by norm_num [secOrigin, jsOr]
  have hel : extraLossOf siteOrigin secOrigin 0 0 false = 0 := rfl
  rw [htx, hgp, hhata, clutter_origin, hel]
  have e4 : antAmb.gainDbi = (18.5 : ℝ) := rfl
  rw [e4]
  norm_num

theorem best_origin_far : getBestRSRPAtPoint [siteOrigin, siteFar] 0 0 false = -0.94 := by
  simp only [getBestRSRPAtPoint, List.foldl_cons, List.foldl_nil]
  rw [if_pos (by norm_num [siteFar, getQuickDistSq] :
    getQuickDistSq siteFar.lat siteFar.lng 0 0 > 0.015)]
  rw [if_neg (by norm_num [siteOrigin, getQuickDistSq] :
    ¬ getQuickDistSq siteOrigin.lat siteOrigin.lng 0 0 > 0.015)]
  have hsecs : siteOrigin.sectors = [secOrigin] := rfl
  rw [hsecs, List.foldl_cons, List.foldl_nil, rsrp_origin_eval]
  rw [if_pos (by norm_num : (-0.94 : ℝ) > -150)]

/-! ## The sector optimizer: tilt bounds, field preservation, empty input -/

theorem targetTiltOf_bounds (site : Site) :
    4 ≤ targetTiltOf site ∧ targetTiltOf site ≤ 10 := by
  rw [targetTiltOf]
  split_ifs <;> norm_num

theorem optimizedSectorsFrom_forall₂ (site : Site) (worst spacing : ℝ) :
    ∀ (i : ℕ) (l : List Sector),
      List.Forall₂ (fun orig new : Sector =>
          new.id = orig.id ∧ new.antennaId = orig.antennaId ∧
          new.txPowerDbm = orig.txPowerDbm ∧ new.frequencyMhz = orig.frequencyMhz ∧
          new.heightM = orig.heightM ∧ new.mechanicalTilt = 0 ∧
          new.electricalTilt = targetTiltOf site ∧
          4 ≤ new.electricalTilt ∧ new.electricalTilt ≤ 10)
        l (optimizedSectorsFrom site worst spacing i l) := by
  intro i l
  induction l generalizing i with
  | nil => exact List.Forall₂.nil
  | cons s rest ih =>
    rw [optimizedSectorsFrom]
    exact List.Forall₂.cons
      ⟨rfl, rfl, rfl, rfl, rfl, rfl, rfl, (targetTiltOf_bounds site).1,
        (targetTiltOf_bounds site).2⟩ (ih (i + 1))

/-- C8: `optimizeSiteParameters` returns a fresh sector list of the same length;
every returned sector keeps the identity, antenna, power, carrier and height of
its original, has mechanical tilt 0, and carries the computed electrical tilt,
which lies in the bounded range 4..10 degrees.  (The embedding is purely
functional, so the input site and its sectors are not mutated by construction.) -/
theorem c8_optimizer_frame : ∀ (site : Site) (allSites : List Site) (u : Bool),
    (optimizeSiteParameters site allSites u).length = site.sectors.length ∧
    List.Forall₂ (fun orig new : Sector =>
        new.id = orig.id ∧ new.antennaId = orig.antennaId ∧
        new.txPowerDbm = orig.txPowerDbm ∧ new.frequencyMhz = orig.frequencyMhz ∧
        new.heightM = orig.heightM ∧ new.mechanicalTilt = 0 ∧
        new.electricalTilt = targetTiltOf site ∧
        4 ≤ new.electricalTilt ∧ new.electricalTilt ≤ 10)
      site.sectors (optimizeSiteParameters site allSites u) := by
  intro site allSites u
  by_cases h : site.sectors.length = 0
  · have hnil : site.sectors = [] := List.length_eq_zero.mp h
    rw [optimizeSiteParameters, if_pos h, hnil]
    exact ⟨rfl, List.Forall₂.nil⟩
  · rw [optimizeSiteParameters, if_neg h]
    have hf := optimizedSectorsFrom_forall₂ site (worstAzimuthOf site allSites u)
      (360 / (site.sectors.length : ℝ)) 0 site.sectors
    exact ⟨hf.length_eq.symm, hf⟩

/-- C9 counterexample: for a site with zero sectors the optimizer silently
returns the empty list; its return type has no error channel at all, so no
`InvalidInput` condition is or can be signalled. -/
theorem c9_counterexample : optimizeSiteParameters siteNoSectors [] false = [] := rfl

/-- C9 (amended): `optimizeSiteParameters` returns the empty list, silently,
whenever the input site has zero sectors. -/
theorem c9_empty_sectors (site : Site) (allSites : List Site) (u : Bool)
    (h : site.sectors = []) : optimizeSiteParameters site allSites u = [] := by
  rw [optimizeSiteParameters, if_pos (by rw [h]; rfl)]

theorem c9_empty_sectors_witness :
    siteNoSectors.sectors = [] ∧ optimizeSiteParameters siteNoSectors [] false = [] :=
  ⟨rfl, c9_empty_sectors siteNoSectors [] false rfl⟩

/-! ## Sentinel behaviour of `calculateRSRP` (claim C6) -/

theorem haversineKm_012 : haversineKm 0 0 0.12 0 = 6371 * (0.12 * (Real.pi / 180)) := by
  have h := haversineKm_due_north (s := 0) (t := 0.12) 0 (by norm_num) (by norm_num)
  rw [sub_zero] at h
  exact h

theorem haversineKm_012_gt_max : MAX_EFFECTIVE_RANGE_KM < haversineKm 0 0 0.12 0 := by
  rw [haversineKm_012, MAX_EFFECTIVE_RANGE_KM]
  nlinarith [Real.pi_gt_three]

/-- C6 (amended): the sentinel contract the code actually implements.  Outside
the quick planar pre-filter the result is the -150 sentinel; inside the
pre-filter an unknown antenna id yields -140 regardless of the great-circle
distance (the lookup precedes the range check); inside the pre-filter with a
catalog antenna, a great-circle distance beyond the maximum effective range
yields -150. -/
theorem c6_sentinel_contract : ∀ (site : Site) (sec : Sector) (lat lng : ℝ) (u : Bool),
    (0.015 < getQuickDistSq site.lat site.lng lat lng →
      calculateRSRP site sec lat lng u = -150) ∧
    (getQuickDistSq site.lat site.lng lat lng ≤ 0.015 →
      ANTENNA_LIBRARY.find? (fun a => a.id == sec.antennaId) = none →
      calculateRSRP site sec lat lng u = -140) ∧
    (∀ ant : AntennaModel, getQuickDistSq site.lat site.lng lat lng ≤ 0.015 →
      ANTENNA_LIBRARY.find? (fun a => a.id == sec.antennaId) = some ant →
      MAX_EFFECTIVE_RANGE_KM < haversineKm site.lat site.lng lat lng →
      calculateRSRP site sec lat lng u = -150) := by
  intro site sec lat lng u
  refine ⟨fun h => calculateRSRP_of_far u h, fun h1 h2 => ?_, fun ant h1 h2 h3 => ?_⟩
  · exact calculateRSRP_of_unknown_antenna u (not_lt.2 h1) h2
  · exact calculateRSRP_of_out_of_range u (not_lt.2 h1) h2 h3

/-- C6 counterexample: a target inside the planar pre-filter but more than 12 km
away by great-circle distance, referencing an unknown antenna, returns -140,
not the -150 the claim's out-of-range clause demands. -/
theorem c6_counterexample :
    MAX_EFFECTIVE_RANGE_KM < haversineKm siteOrigin.lat siteOrigin.lng 0.12 0 ∧
    getQuickDistSq siteOrigin.lat siteOrigin.lng 0.12 0 ≤ 0.015 ∧
    calculateRSRP siteOrigin secGhost 0.12 0 false = -140 ∧
    ((-140 : ℝ) ≠ -150) := by
  refine ⟨haversineKm_012_gt_max, by norm_num [siteOrigin, getQuickDistSq], ?_, by norm_num⟩
  exact calculateRSRP_of_unknown_antenna false
    (by norm_num [siteOrigin, getQuickDistSq]) find_antenna_ghost

theorem c6_sentinel_witness :
    calculateRSRP siteFar secNegTx 0 0 true = -150 ∧
    calculateRSRP siteOrigin secGhost 0 0 false = -140 ∧
    calculateRSRP siteOrigin secOrigin 0.12 0 false = -150 := by
  refine ⟨?_, ?_, ?_⟩
  · exact (c6_sentinel_contract siteFar secNegTx 0 0 true).1
      (by norm_num [siteFar, getQuickDistSq])
  · exact (c6_sentinel_contract siteOrigin secGhost 0 0 false).2.1
      (by norm_num [siteOrigin, getQuickDistSq]) find_antenna_ghost
  · exact (c6_sentinel_contract siteOrigin secOrigin 0.12 0 false).2.2 antAmb
      (by norm_num [siteOrigin, getQuickDistSq]) find_antenna_amb
      haversineKm_012_gt_max

/-! ## The phone-profile pre-filter gap (claim C10) -/

theorem insertionSort_singleton (x : SignalEntry) :
    List.insertionSort signalDesc [x] = [x] := rfl

/-- C10: the phone profile's own pre-filter (squared degree distance < 0.05) is
wider than the RSRP pre-filter (> 0.015 returns -150), so a single site between
the two radii yields a non-null serving cell whose RSRP is the -150 sentinel
and whose SINR is min(30, -150 + 105) = -45, not the no-service -20. -/
theorem c10_prefilter_gap (site : Site) (sec : Sector) (lat lng : ℝ) (u : Bool)
    (hsec : site.sectors = [sec])
    (h1 : getQuickDistSq site.lat site.lng lat lng > 0.015)
    (h2 : getQuickDistSq site.lat site.lng lat lng < 0.05) :
    getPhoneSignalProfile [site] lat lng u =
      ⟨lat, lng, -150, -45, some sec.id, some site.name, []⟩ ∧
    ((-45 : ℝ) ≠ -20) := by
  have hsig : allSignalsOf [site] lat lng u =
      [⟨site.id, site.name, sec.id, -150⟩] := by
    rw [allSignalsOf]
    simp only [List.flatMap_cons, List.flatMap_nil, List.append_nil]
    rw [if_pos h2, hsec]
    simp only [List.map_cons, List.map_nil]
    rw [calculateRSRP_of_far u h1]
  have hsorted : sortedSignalsOf [site] lat lng u =
      [⟨site.id, site.name, sec.id, -150⟩] := by
    rw [sortedSignalsOf, hsig, insertionSort_singleton]
  constructor
  · unfold getPhoneSignalProfile
    rw [hsorted]
    have hmin : min (30 : ℝ) (-150 + 105) = -45 := by norm_num [min_def]
    simp only [List.take_nil, List.map_nil, hmin]
  · norm_num

theorem c10_prefilter_gap_witness :
    getPhoneSignalProfile [siteMid] 0 0 false =
      ⟨0, 0, -150, -45, some "sF", some "Site M", []⟩ ∧
    ((-45 : ℝ) ≠ -20) :=
  c10_prefilter_gap siteMid secNorth 0 0 false rfl
    (by norm_num [siteMid, getQuickDistSq]) (by norm_num [siteMid, getQuickDistSq])

/-! ## Fold algebra for the best-server scan (claim C2) -/

theorem if_gt_eq_max (b r : ℝ) : (if r > b then r else b) = max b r := by
  by_cases h : r > b
  · rw [if_pos h, max_eq_right h.le]
  · rw [if_neg h, max_eq_left (not_lt.1 h)]

theorem foldr_max_pull (l : List ℝ) (a x : ℝ) :
    l.foldr max (max a x) = max x (l.foldr max a) := by
  induction l with
  | nil => rw [List.foldr_nil, List.foldr_nil, max_comm]
  | cons y ys ih => rw [List.foldr_cons, List.foldr_cons, ih, max_left_comm]

theorem le_foldr_max_init (l : List ℝ) (a : ℝ) : a ≤ l.foldr max a := by
  induction l with
  | nil => exact le_rfl
  | cons x xs ih => exact le_trans ih (le_max_right x _)

theorem foldr_max_of_forall_le (l : List ℝ) (z : ℝ) (h : ∀ x ∈ l, x ≤ z) :
    l.foldr max z = z := by
  induction l with
  | nil => rfl
  | cons x xs ih =>
    rw [List.foldr_cons, ih (fun y hy => h y (List.mem_cons_of_mem _ hy)),
      max_eq_right (h x (List.mem_cons_self _ _))]

theorem foldr_max_exchange (l1 l2 : List ℝ) (a : ℝ) :
    l1.foldr max (l2.foldr max a) = l2.foldr max (l1.foldr max a) := by
  induction l1 with
  | nil => rfl
  | cons x xs ih =>
    rw [List.foldr_cons, List.foldr_cons, ih,
      show max x (xs.foldr max a) = max (xs.foldr max a) x from max_comm x _,
      foldr_max_pull]

theorem foldl_rsrp_eq_foldr (site : Site) (lat lng : ℝ) (u : Bool) :
    ∀ (l : List Sector) (a : ℝ),
      l.foldl (fun b sec =>
          if calculateRSRP site sec lat lng u > b then calculateRSRP site sec lat lng u
          else b) a =
        (l.map (fun sec => calculateRSRP site sec lat lng u)).foldr max a := by
  intro l
  induction l with
  | nil => intro a; rfl
  | cons s rest ih =>
    intro a
    rw [List.foldl_cons, if_gt_eq_max, ih, List.map_cons, List.foldr_cons, foldr_max_pull]

theorem getBest_foldr (lat lng : ℝ) (u : Bool) :
    ∀ (sites : List Site) (a : ℝ), -150 ≤ a →
      sites.foldl (fun best site =>
          if getQuickDistSq site.lat site.lng lat lng > 0.015 then best
          else site.sectors.foldl (fun b sec =>
            if calculateRSRP site sec lat lng u > b then calculateRSRP site sec lat lng u
            else b) best) a =
        (sites.flatMap fun st => st.sectors.map fun sec =>
          calculateRSRP st sec lat lng u).foldr max a := by
  intro sites
  induction sites with
  | nil => intro a _; rfl
  | cons st rest ih =>
    intro a ha
    rw [List.foldl_cons, List.flatMap_cons, List.foldr_append]
    by_cases hq : getQuickDistSq st.lat st.lng lat lng > 0.015
    · rw [if_pos hq, ih a ha]
      symm
      apply foldr_max_of_forall_le
      intro x hx
      rcases List.mem_map.1 hx with ⟨sec, _, rfl⟩
      rw [calculateRSRP_of_far u hq]
      exact le_trans (le_trans (by norm_num) ha) (le_foldr_max_init _ _)
    · rw [if_neg hq, foldl_rsrp_eq_foldr, ih _
        (le_trans ha (le_foldr_max_init _ _)), foldr_max_exchange]

/-- C2: `getBestRSRPAtPoint` equals the maximum of `calculateRSRP` over all
site/sector pairs, floored at -150; and inserting (equivalently, removing) one
sector of one site changes the result exactly by a `max` with that sector's
RSRP — hence removing a sector whose RSRP lies strictly below the returned
maximum never changes the result. -/
theorem c2_best_server_max :
    ∀ (sites : List Site) (lat lng : ℝ) (u : Bool) (pre post : List Site) (st : Site)
      (s1 s2 : List Sector) (sec : Sector),
    (getBestRSRPAtPoint sites lat lng u =
      (sites.flatMap fun s => s.sectors.map fun c => calculateRSRP s c lat lng u).foldr
        max (-150)) ∧
    (getBestRSRPAtPoint (pre ++ { st with sectors := s1 ++ sec :: s2 } :: post) lat lng u =
      max (getBestRSRPAtPoint (pre ++ { st with sectors := s1 ++ s2 } :: post) lat lng u)
        (calculateRSRP st sec lat lng u)) := by
  intro sites lat lng u pre post st s1 s2 sec
  have hA : ∀ (ss : List Site), getBestRSRPAtPoint ss lat lng u =
      (ss.flatMap fun s => s.sectors.map fun c => calculateRSRP s c lat lng u).foldr
        max (-150) := by
    intro ss
    rw [getBestRSRPAtPoint]
    exact getBest_foldr lat lng u ss (-150) le_rfl
  refine ⟨hA sites, ?_⟩
  rw [hA, hA]
  have hmid : ∀ X : List Sector,
      (({ st with sectors := X } : Site).sectors.map fun c =>
        calculateRSRP { st with sectors := X } c lat lng u) =
      X.map fun c => calculateRSRP st c lat lng u := fun X => rfl
  simp only [List.flatMap_append, List.flatMap_cons, hmid, List.map_append, List.map_cons,
    List.foldr_append, List.foldr_cons]
  rw [max_comm (calculateRSRP st sec lat lng u)
      ((List.map (fun c => calculateRSRP st c lat lng u) s2).foldr max
        ((post.flatMap fun s => List.map (fun c => calculateRSRP s c lat lng u)
          s.sectors).foldr max (-150))),
    foldr_max_pull,
    max_comm (calculateRSRP st sec lat lng u)
      ((List.map (fun c => calculateRSRP st c lat lng u) s1).foldr max
        ((List.map (fun c => calculateRSRP st c lat lng u) s2).foldr max
          ((post.flatMap fun s => List.map (fun c => calculateRSRP s c lat lng u)
            s.sectors).foldr max (-150)))),
    foldr_max_pull, max_comm]

/-! ## The serving-cell selector (claim C5) -/

theorem foldl_max_eq_foldr (l : List ℝ) (a : ℝ) : l.foldl max a = l.foldr max a := by
  induction l generalizing a with
  | nil => rfl
  | cons x xs ih => rw [List.foldl_cons, List.foldr_cons, ih, foldr_max_pull]

theorem foldr_max_mem_or (l : List ℝ) (a : ℝ) : l.foldr max a = a ∨ l.foldr max a ∈ l := by
  induction l with
  | nil => exact Or.inl rfl
  | cons x xs ih =>
    rw [List.foldr_cons]
    rcases max_cases x (xs.foldr max a) with ⟨heq, _⟩ | ⟨heq, _⟩
    · right
      rw [heq]
      exact List.mem_cons_self _ _
    · rcases ih with h | h
      · left
        rw [heq, h]
      · right
        rw [heq]
        exact List.mem_cons_of_mem _ h

theorem le_foldr_max_of_mem {l : List ℝ} {x : ℝ} (a : ℝ) (h : x ∈ l) :
    x ≤ l.foldr max a := by
  induction l with
  | nil => exact absurd h (List.not_mem_nil x)
  | cons y ys ih =>
    rw [List.foldr_cons]
    rcases List.mem_cons.1 h with rfl | hmem
    · exact le_max_left _ _
    · exact le_trans (ih hmem) (le_max_right _ _)

theorem sortedSignals_perm (sites : List Site) (lat lng : ℝ) (u : Bool) :
    List.Perm (sortedSignalsOf sites lat lng u) (allSignalsOf sites lat lng u) :=
  List.perm_insertionSort signalDesc _

theorem sortedSignals_pairwise (sites : List Site) (lat lng : ℝ) (u : Bool) :
    List.Pairwise signalDesc (sortedSignalsOf sites lat lng u) :=
  List.sorted_insertionSort signalDesc _

theorem pairwise_head_ge {h0 : SignalEntry} {t : List SignalEntry}
    (hp : List.Pairwise signalDesc (h0 :: t)) :
    ∀ x ∈ h0 :: t, x.rsrp ≤ h0.rsrp := by
  intro x hx
  rcases List.mem_cons.1 hx with rfl | hmem
  · exact le_rfl
  · exact (List.pairwise_cons.1 hp).1 x hmem

theorem allSignals_nil_of_far (sites : List Site) (lat lng : ℝ) (u : Bool)
    (h : ∀ st ∈ sites, ¬ getQuickDistSq st.lat st.lng lat lng < 0.05) :
    allSignalsOf sites lat lng u = [] := by
  induction sites with
  | nil => rfl
  | cons st rest ih =>
    rw [allSignalsOf, List.flatMap_cons, if_neg (h st (List.mem_cons_self _ _))]
    rw [List.nil_append]
    exact ih (fun s hs => h s (List.mem_cons_of_mem _ hs))

/-- C5: the phone signal profile ranks all computed sector signals in
descending RSRP order (the sorted list is a permutation of the computed
signals, pairwise descending) and is built from the head of that ranking; the
reported RSRP is the maximum over all computed signals; SINR equals
min(30, servingRsrp + 105) exactly when a signal exists; and when no site
passes the 0.05 pre-filter the no-service profile (-150, -20, no serving cell)
is returned. -/
theorem c5_signal_profile : ∀ (sites : List Site) (lat lng : ℝ) (u : Bool),
    (List.Perm (sortedSignalsOf sites lat lng u) (allSignalsOf sites lat lng u) ∧
     List.Pairwise signalDesc (sortedSignalsOf sites lat lng u) ∧
     getPhoneSignalProfile sites lat lng u =
       (match sortedSignalsOf sites lat lng u with
        | [] => ⟨lat, lng, -150, -20, none, none, []⟩
        | s :: rest =>
          ⟨lat, lng, s.rsrp, min 30 (s.rsrp + 105), some s.sectorId, some s.siteName,
            (rest.take 3).map fun x => (x.siteName, x.rsrp)⟩)) ∧
    ((getPhoneSignalProfile sites lat lng u).rsrp =
      match allSignalsOf sites lat lng u with
      | [] => (-150 : ℝ)
      | s :: rest => (rest.map SignalEntry.rsrp).foldl max s.rsrp) ∧
    ((getPhoneSignalProfile sites lat lng u).sinr =
      match allSignalsOf sites lat lng u with
      | [] => (-20 : ℝ)
      | _ :: _ => min 30 ((getPhoneSignalProfile sites lat lng u).rsrp + 105)) ∧
    (List.Forall (fun st => ¬ getQuickDistSq st.lat st.lng lat lng < 0.05) sites →
      getPhoneSignalProfile sites lat lng u = ⟨lat, lng, -150, -20, none, none, []⟩) := by
  intro sites lat lng u
  have hperm := sortedSignals_perm sites lat lng u
  have hpair := sortedSignals_pairwise sites lat lng u
  refine ⟨⟨hperm, hpair, by unfold getPhoneSignalProfile; rfl⟩, ?_, ?_, ?_⟩
  · rcases hsig : allSignalsOf sites lat lng u with _ | ⟨s, rest⟩
    · have hs : sortedSignalsOf sites lat lng u = [] := by
        rw [sortedSignalsOf, hsig]
        rfl
      unfold getPhoneSignalProfile
      rw [hs]
    · rcases hsort : sortedSignalsOf sites lat lng u with _ | ⟨h0, t0⟩
      · exact absurd (hsort ▸ hsig ▸ hperm) (by simp)
      · have hmem0 : h0 ∈ s :: rest := by
          rw [← hsig]
          exact (hsort ▸ hperm).mem_iff.1 (List.mem_cons_self _ _)
        have hhead : ∀ x ∈ s :: rest, x.rsrp ≤ h0.rsrp := by
          intro x hx
          refine pairwise_head_ge (hsort ▸ hpair) x ?_
          exact (hsort ▸ hperm).mem_iff.2 (hsig ▸ hx)
        have hrsrpval : (getPhoneSignalProfile sites lat lng u).rsrp = h0.rsrp := by
          unfold getPhoneSignalProfile
          rw [hsort]
        rw [hrsrpval]
        show h0.rsrp = (rest.map SignalEntry.rsrp).foldl max s.rsrp
        rw [foldl_max_eq_foldr]
        apply le_antisymm
        · rcases List.mem_cons.1 hmem0 with rfl | hmem
          · exact le_foldr_max_init _ _
          · exact le_foldr_max_of_mem _ (List.mem_map_of_mem SignalEntry.rsrp hmem)
        · rcases foldr_max_mem_or (rest.map SignalEntry.rsrp) s.rsrp with h | h
          · rw [h]
            exact hhead s (List.mem_cons_self _ _)
          · rcases List.mem_map.1 h with ⟨x, hx, hxe⟩
            rw [← hxe]
            exact hhead x (List.mem_cons_of_mem _ hx)
  · rcases hsig : allSignalsOf sites lat lng u with _ | ⟨s, rest⟩
    · have hs : sortedSignalsOf sites lat lng u = [] := by
        rw [sortedSignalsOf, hsig]
        rfl
      unfold getPhoneSignalProfile
      rw [hs]
    · rcases hsort : sortedSignalsOf sites lat lng u with _ | ⟨h0, t0⟩
      · exact absurd (hsort ▸ hsig ▸ hperm) (by simp)
      · have hrsrpval : (getPhoneSignalProfile sites lat lng u).rsrp = h0.rsrp := by
          unfold getPhoneSignalProfile
          rw [hsort]
        have hsinr : (getPhoneSignalProfile sites lat lng u).sinr =
            min 30 (h0.rsrp + 105) := by
          unfold getPhoneSignalProfile
          rw [hsort]
        rw [hsinr]
        show min 30 (h0.rsrp + 105) =
          min 30 ((getPhoneSignalProfile sites lat lng u).rsrp + 105)
        rw [hrsrpval]
  · intro hfar
    have hsig : allSignalsOf sites lat lng u = [] :=
      allSignals_nil_of_far sites lat lng u (List.forall_iff_forall_mem.1 hfar)
    have hs : sortedSignalsOf sites lat lng u = [] := by
      rw [sortedSignalsOf, hsig]
      rfl
    unfold getPhoneSignalProfile
    rw [hs]

/-! ## More component evaluations (claims C1 and C7) -/

theorem horizLossOf_zero_azimuth (ant : AntennaModel) (sec : Sector) (h : sec.azimuth = 0) :
    horizLossOf ant sec 0 = 0 := by
  rw [horizLossOf, h]
  rw [show (0 : ℝ) - 0 + 180 = 180 by norm_num, jsMod_of_lt (by norm_num) (by norm_num)]
  norm_num

theorem horizLossOf_south_bearing_north : horizLossOf antAmb secSouth 0 = 35 := by
  rw [horizLossOf]
  rw [show (0 : ℝ) - secSouth.azimuth + 180 = 0 by norm_num [secSouth],
    jsMod_of_lt (le_refl (0 : ℝ)) (by norm_num)]
  rw [show |(0 : ℝ) - 180| = 180 by norm_num]
  rw [min_eq_left (by norm_num [antAmb])]

theorem vertLossOf_28_tilt90 (site : Site) (sec : Sector)
    (hh : jsOr sec.heightM site.towerHeightM - 1.5 = 28.5)
    (ht : jsOr sec.mechanicalTilt 0 + jsOr sec.electricalTilt 0 = 90) :
    vertLossOf site antAmb sec 0 = 0 := by
  rw [vertLossOf, hh, ht, atan2_pos_zero (by norm_num), pi_half_deg]
  norm_num

theorem hata_nearfield_zero (f hb hm : ℝ) :
    calculateHata 0 f hb hm = -7.56 + 20 * Real.logb 10 f := by
  rw [calculateHata, if_pos (by norm_num : (0 : ℝ) < 0.01), jsOr_zero, logb_ten_centi]
  ring

theorem sin_242_pi : Real.sin (242 * Real.pi) = 0 := by
  have h := Real.sin_nat_mul_pi 242
  push_cast at h
  exact h

theorem clutter_free_point :
    getUrbanClutterLoss (Real.pi / 14482) (Real.pi / 14244) = 0 := by
  rw [getUrbanClutterLoss,
    show Real.pi / 14482 * 7241 = Real.pi / 2 by ring,
    show Real.pi / 14244 * 7122 = Real.pi / 2 by ring,
    Real.sin_pi_div_two]
  rw [if_neg (by norm_num), if_neg (by norm_num)]

theorem clutter_pi7241 : getUrbanClutterLoss (Real.pi / 7241) 0 = 30 := by
  rw [getUrbanClutterLoss, show Real.pi / 7241 * 7241 = Real.pi by ring, Real.sin_pi]
  rw [if_pos]
  rw [zero_mul, Real.sin_zero]
  norm_num

theorem clutter_2pi7241 : getUrbanClutterLoss (2 * Real.pi / 7241) 0 = 30 := by
  rw [getUrbanClutterLoss, show 2 * Real.pi / 7241 * 7241 = 2 * Real.pi by ring,
    Real.sin_two_pi]
  rw [if_pos]
  rw [zero_mul, Real.sin_zero]
  norm_num

theorem clutter_242pi7241 : getUrbanClutterLoss (242 * Real.pi / 7241) 0 = 30 := by
  rw [getUrbanClutterLoss, show 242 * Real.pi / 7241 * 7241 = 242 * Real.pi by ring,
    sin_242_pi]
  rw [if_pos]
  rw [zero_mul, Real.sin_zero]
  norm_num

theorem clutter_5pi14482 : getUrbanClutterLoss (5 * Real.pi / 14482) 0 = 0 := by
  rw [getUrbanClutterLoss, show 5 * Real.pi / 14482 * 7241 = Real.pi / 2 + 2 * Real.pi by ring,
    Real.sin_add_two_pi, Real.sin_pi_div_two]
  rw [if_neg (by norm_num), if_neg (by norm_num)]

theorem rsrp_clutterfree_zero_tx :
    calculateRSRP siteClutterFree secZeroTx (Real.pi / 14482) (Real.pi / 14244) false
      = 29.06 := by
  have h1 : ¬ getQuickDistSq siteClutterFree.lat siteClutterFree.lng
      (Real.pi / 14482) (Real.pi / 14244) > 0.015 := by
    rw [show getQuickDistSq siteClutterFree.lat siteClutterFree.lng
        (Real.pi / 14482) (Real.pi / 14244) =
      getQuickDistSq (Real.pi / 14482) (Real.pi / 14244)
        (Real.pi / 14482) (Real.pi / 14244) from rfl, getQuickDistSq]
    norm_num
  have hd : haversineKm siteClutterFree.lat siteClutterFree.lng
      (Real.pi / 14482) (Real.pi / 14244) = 0 :=
    haversineKm_self (Real.pi / 14482) (Real.pi / 14244)
  have h3 : ¬ haversineKm siteClutterFree.lat siteClutterFree.lng
      (Real.pi / 14482) (Real.pi / 14244) > MAX_EFFECTIVE_RANGE_KM := by
    rw [hd, MAX_EFFECTIVE_RANGE_KM]
    norm_num
  rw [calculateRSRP_eq_formula false h1 find_antenna_amb h3]
  have hbear : bearingDeg siteClutterFree.lat siteClutterFree.lng
      (Real.pi / 14482) (Real.pi / 14244) = 0 :=
    bearingDeg_self (Real.pi / 14482) (Real.pi / 14244)
  have hgp : gainPatternOf siteClutterFree secZeroTx antAmb
      (Real.pi / 14482) (Real.pi / 14244) = 0 := by
    rw [gainPatternOf, hbear, hd, zero_mul,
      horizLossOf_zero_azimuth antAmb secZeroTx rfl,
      vertLossOf_28_tilt90 siteClutterFree secZeroTx
        (by norm_num [secZeroTx, siteClutterFree, jsOr])
        (by norm_num [secZeroTx, jsOr])]
    norm_num
  have hhata : calculateHata (haversineKm siteClutterFree.lat siteClutterFree.lng
      (Real.pi / 14482) (Real.pi / 14244)) secZeroTx.frequencyMhz
      (jsOr secZeroTx.heightM siteClutterFree.towerHeightM) 1.5 = 32.44 := by
    rw [hd, hata_nearfield_zero, show secZeroTx.frequencyMhz = (100 : ℝ) from rfl,
      logb_ten_hundred]
    norm_num
  have htx : jsOr secZeroTx.txPowerDbm 43 = 43 := jsOr_zero 43
  rw [htx, hgp, hhata, clutter_free_point,
    show extraLossOf siteClutterFree secZeroTx (Real.pi / 14482) (Real.pi / 14244) false
      = 0 from rfl,
    show antAmb.gainDbi = (18.5 : ℝ) from rfl]
  norm_num

theorem rsrp_clutterfree_freq_one :
    calculateRSRP siteClutterFree secFreqOne (Real.pi / 14482) (Real.pi / 14244) false
      = 69.06 := by
  have h1 : ¬ getQuickDistSq siteClutterFree.lat siteClutterFree.lng
      (Real.pi / 14482) (Real.pi / 14244) > 0.015 := by
    rw [show getQuickDistSq siteClutterFree.lat siteClutterFree.lng
        (Real.pi / 14482) (Real.pi / 14244) =
      getQuickDistSq (Real.pi / 14482) (Real.pi / 14244)
        (Real.pi / 14482) (Real.pi / 14244) from rfl, getQuickDistSq]
    norm_num
  have hd : haversineKm siteClutterFree.lat siteClutterFree.lng
      (Real.pi / 14482) (Real.pi / 14244) = 0 :=
    haversineKm_self (Real.pi / 14482) (Real.pi / 14244)
  have h3 : ¬ haversineKm siteClutterFree.lat siteClutterFree.lng
      (Real.pi / 14482) (Real.pi / 14244) > MAX_EFFECTIVE_RANGE_KM := by
    rw [hd, MAX_EFFECTIVE_RANGE_KM]
    norm_num
  rw [calculateRSRP_eq_formula false h1 find_antenna_amb h3]
  have hbear : bearingDeg siteClutterFree.lat siteClutterFree.lng
      (Real.pi / 14482) (Real.pi / 14244) = 0 :=
    bearingDeg_self (Real.pi / 14482) (Real.pi / 14244)
  have hgp : gainPatternOf siteClutterFree secFreqOne antAmb
      (Real.pi / 14482) (Real.pi / 14244) = 0 := by
    rw [gainPatternOf, hbear, hd, zero_mul,
      horizLossOf_zero_azimuth antAmb secFreqOne rfl,
      vertLossOf_28_tilt90 siteClutterFree secFreqOne
        (by norm_num [secFreqOne, siteClutterFree, jsOr])
        (by norm_num [secFreqOne, jsOr])]
    norm_num
  have hhata : calculateHata (haversineKm siteClutterFree.lat siteClutterFree.lng
      (Real.pi / 14482) (Real.pi / 14244)) secFreqOne.frequencyMhz
      (jsOr secFreqOne.heightM siteClutterFree.towerHeightM) 1.5 = -7.56 := by
    rw [hd, hata_nearfield_zero, show secFreqOne.frequencyMhz = (1 : ℝ) from rfl,
      Real.logb_one]
    norm_num
  have htx : jsOr secFreqOne.txPowerDbm 43 = 43 := jsOr_of_ne 43 (by norm_num [secFreqOne])
  rw [htx, hgp, hhata, clutter_free_point,
    show extraLossOf siteClutterFree secFreqOne (Real.pi / 14482) (Real.pi / 14244) false
      = 0 from rfl,
    show antAmb.gainDbi = (18.5 : ℝ) from rfl]
  norm_num

/-! ## The unclamped computed branch can fall below -150 (claim C1) -/

theorem siteBelow_quick :
    ¬ getQuickDistSq siteBelow.lat siteBelow.lng (242 * Real.pi / 7241) 0 > 0.015 := by
  rw [show getQuickDistSq siteBelow.lat siteBelow.lng (242 * Real.pi / 7241) 0 =
    getQuickDistSq (242 * Real.pi / 7241 - 0.105) 0 (242 * Real.pi / 7241) 0 from rfl,
    getQuickDistSq,
    show 242 * Real.pi / 7241 - 0.105 - 242 * Real.pi / 7241 = -0.105 by ring]
  norm_num

theorem siteBelow_dist :
    haversineKm siteBelow.lat siteBelow.lng (242 * Real.pi / 7241) 0 =
      6371 * (0.105 * (Real.pi / 180)) := by
  have h := haversineKm_due_north (s := 242 * Real.pi / 7241 - 0.105)
    (t := 242 * Real.pi / 7241) 0 (by norm_num) (by norm_num)
  rw [show 242 * Real.pi / 7241 - (242 * Real.pi / 7241 - 0.105) = 0.105 by ring] at h
  exact h

theorem siteBelow_dist_ge_ten :
    10 ≤ haversineKm siteBelow.lat siteBelow.lng (242 * Real.pi / 7241) 0 := by
  rw [siteBelow_dist]
  nlinarith [Real.pi_gt_three]

theorem siteBelow_dist_le_max :
    haversineKm siteBelow.lat siteBelow.lng (242 * Real.pi / 7241) 0 ≤
      MAX_EFFECTIVE_RANGE_KM := by
  rw [siteBelow_dist, MAX_EFFECTIVE_RANGE_KM]
  nlinarith [Real.pi_lt_d2]

theorem siteBelow_bearing :
    bearingDeg siteBelow.lat siteBelow.lng (242 * Real.pi / 7241) 0 = 0 := by
  have h := bearingDeg_due_north (s := 242 * Real.pi / 7241 - 0.105)
    (t := 242 * Real.pi / 7241) 0 (by norm_num) (by norm_num)
  exact h

theorem rsrp_below_eval :
    calculateRSRP siteBelow secSouth (242 * Real.pi / 7241) 0 false < -150 := by
  have h3 : ¬ haversineKm siteBelow.lat siteBelow.lng (242 * Real.pi / 7241) 0 >
      MAX_EFFECTIVE_RANGE_KM := not_lt.2 siteBelow_dist_le_max
  rw [calculateRSRP_eq_formula false siteBelow_quick find_antenna_amb h3]
  have hgp : gainPatternOf siteBelow secSouth antAmb (242 * Real.pi / 7241) 0 = -35 := by
    rw [gainPatternOf, siteBelow_bearing, horizLossOf_south_bearing_north]
    have h0 := vertLossOf_nonneg siteBelow antAmb secSouth
      (haversineKm siteBelow.lat siteBelow.lng (242 * Real.pi / 7241) 0 * 1000)
    exact max_eq_left (by linarith)
  have hhb : jsOr secSouth.heightM siteBelow.towerHeightM = 30 := by
    norm_num [secSouth, siteBelow, jsOr]
  have hhata : 146.6 < calculateHata
      (haversineKm siteBelow.lat siteBelow.lng (242 * Real.pi / 7241) 0)
      secSouth.frequencyMhz (jsOr secSouth.heightM siteBelow.towerHeightM) 1.5 := by
    rw [hhb, show secSouth.frequencyMhz = (1800 : ℝ) from rfl,
      calculateHata_of_ge 1800 30 1.5 (le_trans (by norm_num) siteBelow_dist_ge_ten)]
    have hLD : 1 ≤ Real.logb 10
        (haversineKm siteBelow.lat siteBelow.lng (242 * Real.pi / 7241) 0) := by
      have := logb_ten_mono (x := 10)
        (y := haversineKm siteBelow.lat siteBelow.lng (242 * Real.pi / 7241) 0)
        (by norm_num) siteBelow_dist_ge_ten
      rwa [logb_ten_ten] at this
    have h30 := logb_ten_thirty_bounds
    have h1800 := logb_ten_1800_bounds
    have hcoeff : (31.8 : ℝ) ≤ 44.9 - 6.55 * Real.logb 10 30 := by linarith [h30.2]
    have hprod : (31.8 : ℝ) ≤ (44.9 - 6.55 * Real.logb 10 30) *
        Real.logb 10 (haversineKm siteBelow.lat siteBelow.lng (242 * Real.pi / 7241) 0) := by
      nlinarith [mul_le_mul_of_nonneg_left hLD
        (by linarith [h30.2] : (0 : ℝ) ≤ 44.9 - 6.55 * Real.logb 10 30)]
    linarith [h1800.1, h1800.2, h30.1, h30.2]
  have htx : jsOr secSouth.txPowerDbm 43 = 43 := jsOr_of_ne 43 (by norm_num [secSouth])
  rw [htx, hgp, clutter_242pi7241,
    show extraLossOf siteBelow secSouth (242 * Real.pi / 7241) 0 false = 0 from rfl,
    show antAmb.gainDbi = (18.5 : ℝ) from rfl]
  linarith

/-- C1 (amended): with a catalog antenna, a nonzero transmit power (so the
43 dBm default is not substituted), terrain modeling off, a nonnegative Hata
path loss at the computed distance, and a sentinel-compatible power budget
(txPowerDbm + gainDbi at least -150), the returned value never exceeds
txPowerDbm + gainDbi.  The -150 lower bound of the original claim does not
hold for the computed branch and is dropped. -/
theorem c1_upper_bound (site : Site) (sec : Sector) (lat lng : ℝ) (ant : AntennaModel)
    (hfind : ANTENNA_LIBRARY.find? (fun a => a.id == sec.antennaId) = some ant)
    (htx : sec.txPowerDbm ≠ 0)
    (hfloor : -150 ≤ sec.txPowerDbm + ant.gainDbi)
    (hhata : 0 ≤ calculateHata (haversineKm site.lat site.lng lat lng) sec.frequencyMhz
      (jsOr sec.heightM site.towerHeightM) 1.5) :
    calculateRSRP site sec lat lng false ≤ sec.txPowerDbm + ant.gainDbi := by
  by_cases h1 : getQuickDistSq site.lat site.lng lat lng > 0.015
  · rw [calculateRSRP_of_far false h1]
    linarith
  · by_cases h3 : haversineKm site.lat site.lng lat lng > MAX_EFFECTIVE_RANGE_KM
    · rw [calculateRSRP_of_out_of_range false h1 hfind h3]
      linarith
    · rw [calculateRSRP_eq_formula false h1 hfind h3, jsOr_of_ne 43 htx]
      have hgp := gainPatternOf_nonpos site sec ant lat lng
      have hcl := getUrbanClutterLoss_nonneg lat lng
      rw [show extraLossOf site sec lat lng false = 0 from rfl]
      linarith

theorem c1_upper_bound_witness :
    calculateRSRP siteOrigin secOrigin 0 0 false ≤
      secOrigin.txPowerDbm + antAmb.gainDbi := by
  apply c1_upper_bound siteOrigin secOrigin 0 0 antAmb find_antenna_amb
    (by norm_num [secOrigin]) (by norm_num [secOrigin, antAmb])
  have hd : haversineKm siteOrigin.lat siteOrigin.lng 0 0 = 0 := haversineKm_self 0 0
  rw [hd, hata_nearfield_zero, show secOrigin.frequencyMhz = (100 : ℝ) from rfl,
    logb_ten_hundred]
  norm_num

/-- C1 counterexample: four explicit violations of the claim as stated.  (i)
At the edge of range under dense clutter and a 180-degree pattern null the
computed value falls below -150; (ii) the -150 out-of-range sentinel exceeds
txPowerDbm + gainDbi when the power is very negative; (iii) a transmit power
of 0 is replaced by the 43 dBm default, and the result exceeds 0 + gainDbi;
(iv) at a 1 MHz carrier the near-field Hata term is negative and the result
exceeds txPowerDbm + gainDbi. -/
theorem c1_counterexample :
    (calculateRSRP siteBelow secSouth (242 * Real.pi / 7241) 0 false < -150) ∧
    (calculateRSRP siteFar secNegTx 0 0 false = -150 ∧
      secNegTx.txPowerDbm + antAmb.gainDbi < -150) ∧
    (calculateRSRP siteClutterFree secZeroTx (Real.pi / 14482) (Real.pi / 14244) false
        = 29.06 ∧
      secZeroTx.txPowerDbm + antAmb.gainDbi < 29.06) ∧
    (calculateRSRP siteClutterFree secFreqOne (Real.pi / 14482) (Real.pi / 14244) false
        = 69.06 ∧
      secFreqOne.txPowerDbm + antAmb.gainDbi < 69.06) := by
  refine ⟨rsrp_below_eval, ⟨?_, by norm_num [secNegTx, antAmb]⟩,
    ⟨rsrp_clutterfree_zero_tx, by norm_num [secZeroTx, antAmb]⟩,
    ⟨rsrp_clutterfree_freq_one, by norm_num [secFreqOne, antAmb]⟩⟩
  exact calculateRSRP_of_far false (by norm_num [siteFar, getQuickDistSq])

/-! ## Monotone range decay (claim C7) -/

theorem vertLossOf_cap_90 (site : Site) (sec : Sector) (dM : ℝ)
    (hd : 28.5 ≤ dM)
    (hh : jsOr sec.heightM site.towerHeightM - 1.5 = 28.5)
    (ht : jsOr sec.mechanicalTilt 0 + jsOr sec.electricalTilt 0 = 90) :
    vertLossOf site antAmb sec dM = 25 := by
  have hdpos : (0 : ℝ) < dM := by linarith
  rw [vertLossOf, hh, ht, atan2, if_pos hdpos]
  have hr0 : (0 : ℝ) ≤ 28.5 / dM := by positivity
  have hr1 : 28.5 / dM ≤ 1 := by
    rw [div_le_one hdpos]
    linarith
  have hat0 : 0 ≤ Real.arctan (28.5 / dM) := by
    have h := Real.arctan_strictMono.monotone hr0
    rwa [Real.arctan_zero] at h
  have hat1 : Real.arctan (28.5 / dM) ≤ Real.pi / 4 := by
    have h := Real.arctan_strictMono.monotone hr1
    rwa [Real.arctan_one] at h
  have hπ := Real.pi_pos
  have hA0 : 0 ≤ Real.arctan (28.5 / dM) * 180 / Real.pi := by positivity
  have hA45 : Real.arctan (28.5 / dM) * 180 / Real.pi ≤ 45 := by
    rw [div_le_iff₀ hπ]
    nlinarith
  rw [abs_of_nonpos (by linarith), show antAmb.verticalBeamwidth = (6.5 : ℝ) from rfl]
  apply min_eq_left
  have h45 : 45 ≤ -(Real.arctan (28.5 / dM) * 180 / Real.pi - 90) := by linarith
  have hB : (45 : ℝ) / (6.5 / 2) ≤
      -(Real.arctan (28.5 / dM) * 180 / Real.pi - 90) / (6.5 / 2) := by
    gcongr
  have hsq : ((45 : ℝ) / (6.5 / 2)) ^ 2 ≤
      (-(Real.arctan (28.5 / dM) * 180 / Real.pi - 90) / (6.5 / 2)) ^ 2 :=
    pow_le_pow_left₀ (by positivity) hB 2
  nlinarith [hsq]

/-- C7 (amended): beyond the near-field threshold, with the target pre-filters
and range checks passing, terrain off, equal pattern gain and equal clutter at
the two targets, and a base height whose Hata distance coefficient is
nonnegative, RSRP is non-increasing in the great-circle distance.  The
original unconditional claim is false: the clutter and pattern terms vary with
the target position and can overwhelm the path-loss growth. -/
theorem c7_monotone (site : Site) (sec : Sector) (ant : AntennaModel)
    (t1lat t1lng t2lat t2lng : ℝ)
    (hfind : ANTENNA_LIBRARY.find? (fun a => a.id == sec.antennaId) = some ant)
    (hq1 : ¬ getQuickDistSq site.lat site.lng t1lat t1lng > 0.015)
    (hq2 : ¬ getQuickDistSq site.lat site.lng t2lat t2lng > 0.015)
    (hr1 : ¬ haversineKm site.lat site.lng t1lat t1lng > MAX_EFFECTIVE_RANGE_KM)
    (hr2 : ¬ haversineKm site.lat site.lng t2lat t2lng > MAX_EFFECTIVE_RANGE_KM)
    (hnear : 0.01 ≤ haversineKm site.lat site.lng t1lat t1lng)
    (hdist : haversineKm site.lat site.lng t1lat t1lng ≤
      haversineKm site.lat site.lng t2lat t2lng)
    (hgp : gainPatternOf site sec ant t1lat t1lng = gainPatternOf site sec ant t2lat t2lng)
    (hcl : getUrbanClutterLoss t1lat t1lng = getUrbanClutterLoss t2lat t2lng)
    (hhb : 6.55 * Real.logb 10 (jsOr sec.heightM site.towerHeightM) ≤ 44.9) :
    calculateRSRP site sec t2lat t2lng false ≤ calculateRSRP site sec t1lat t1lng false := by
  rw [calculateRSRP_eq_formula false hq1 hfind hr1,
    calculateRSRP_eq_formula false hq2 hfind hr2]
  have hmono := calculateHata_mono sec.frequencyMhz
    (jsOr sec.heightM site.towerHeightM) 1.5 hnear hdist hhb
  rw [show extraLossOf site sec t1lat t1lng false = 0 from rfl,
    show extraLossOf site sec t2lat t2lng false = 0 from rfl]
  linarith [hgp.le, hgp.ge, hcl.le, hcl.ge]

theorem pi_sq_bounds : 9 ≤ Real.pi ^ 2 ∧ Real.pi ^ 2 ≤ 9.9225 := by
  constructor
  · nlinarith [Real.pi_gt_three]
  · nlinarith [Real.pi_lt_d2, Real.pi_pos]

theorem dist_origin_pi7241 : haversineKm siteOrigin.lat siteOrigin.lng (Real.pi / 7241) 0 =
    6371 * (Real.pi / 7241 * (Real.pi / 180)) := by
  have h := haversineKm_due_north (s := 0) (t := Real.pi / 7241) 0
    (by positivity) (by nlinarith [Real.pi_lt_d2])
  rw [sub_zero] at h
  exact h

theorem dist_origin_2pi7241 : haversineKm siteOrigin.lat siteOrigin.lng (2 * Real.pi / 7241) 0 =
    6371 * (2 * Real.pi / 7241 * (Real.pi / 180)) := by
  have h := haversineKm_due_north (s := 0) (t := 2 * Real.pi / 7241) 0
    (by positivity) (by nlinarith [Real.pi_lt_d2])
  rw [sub_zero] at h
  exact h

theorem bearing_origin_pi7241 : bearingDeg siteOrigin.lat siteOrigin.lng (Real.pi / 7241) 0 = 0 :=
  bearingDeg_due_north (s := 0) (t := Real.pi / 7241) 0 (by positivity)
    (by nlinarith [Real.pi_lt_d2])

theorem bearing_origin_2pi7241 :
    bearingDeg siteOrigin.lat siteOrigin.lng (2 * Real.pi / 7241) 0 = 0 :=
  bearingDeg_due_north (s := 0) (t := 2 * Real.pi / 7241) 0 (by positivity)
    (by nlinarith [Real.pi_lt_d2])

theorem c7_monotone_witness :
    calculateRSRP siteOrigin secOrigin (2 * Real.pi / 7241) 0 false ≤
      calculateRSRP siteOrigin secOrigin (Real.pi / 7241) 0 false := by
  have hsq := pi_sq_bounds
  have hd1 := dist_origin_pi7241
  have hd2 := dist_origin_2pi7241
  have hd1near : 0.01 ≤ haversineKm siteOrigin.lat siteOrigin.lng (Real.pi / 7241) 0 := by
    rw [hd1]
    nlinarith [hsq.1]
  have hd2max : ¬ haversineKm siteOrigin.lat siteOrigin.lng (2 * Real.pi / 7241) 0 >
      MAX_EFFECTIVE_RANGE_KM := by
    rw [hd2, MAX_EFFECTIVE_RANGE_KM]
    exact not_lt.2 (by nlinarith [hsq.2])
  have hd1max : ¬ haversineKm siteOrigin.lat siteOrigin.lng (Real.pi / 7241) 0 >
      MAX_EFFECTIVE_RANGE_KM := by
    rw [hd1, MAX_EFFECTIVE_RANGE_KM]
    exact not_lt.2 (by nlinarith [hsq.2])
  apply c7_monotone siteOrigin secOrigin antAmb (Real.pi / 7241) 0 (2 * Real.pi / 7241) 0
    find_antenna_amb
  · rw [show getQuickDistSq siteOrigin.lat siteOrigin.lng (Real.pi / 7241) 0 =
      getQuickDistSq 0 0 (Real.pi / 7241) 0 from rfl, getQuickDistSq]
    push_neg
    nlinarith [hsq.2]
  · rw [show getQuickDistSq siteOrigin.lat siteOrigin.lng (2 * Real.pi / 7241) 0 =
      getQuickDistSq 0 0 (2 * Real.pi / 7241) 0 from rfl, getQuickDistSq]
    push_neg
    nlinarith [hsq.2]
  · exact hd1max
  · exact hd2max
  · exact hd1near
  · rw [hd1, hd2]
    nlinarith [hsq.1]
  · have hdm1 : 28.5 ≤ haversineKm siteOrigin.lat siteOrigin.lng (Real.pi / 7241) 0 * 1000 := by
      rw [hd1]
      nlinarith [hsq.1]
    have hdm2 : 28.5 ≤
        haversineKm siteOrigin.lat siteOrigin.lng (2 * Real.pi / 7241) 0 * 1000 := by
      rw [hd2]
      nlinarith [hsq.1]
    rw [gainPatternOf, gainPatternOf, bearing_origin_pi7241, bearing_origin_2pi7241,
      horizLossOf_zero_azimuth antAmb secOrigin rfl,
      vertLossOf_cap_90 siteOrigin secOrigin _ hdm1
        (by norm_num [secOrigin, siteOrigin, jsOr]) (by norm_num [secOrigin, jsOr]),
      vertLossOf_cap_90 siteOrigin secOrigin _ hdm2
        (by norm_num [secOrigin, siteOrigin, jsOr]) (by norm_num [secOrigin, jsOr])]
  · rw [clutter_pi7241, clutter_2pi7241]
  · rw [show jsOr secOrigin.heightM siteOrigin.towerHeightM = (30 : ℝ) by
      norm_num [secOrigin, siteOrigin, jsOr]]
    linarith [logb_ten_thirty_bounds.2]

theorem dist_south_pi7241 : haversineKm siteSouthOf.lat siteSouthOf.lng (Real.pi / 7241) 0 =
    6371 * (15 * Real.pi / 7241 * (Real.pi / 180)) := by
  have hπ := Real.pi_pos
  have h := haversineKm_due_north (s := -(14 * Real.pi / 7241)) (t := Real.pi / 7241) 0
    (by nlinarith) (by nlinarith [Real.pi_lt_d2])
  rw [show Real.pi / 7241 - -(14 * Real.pi / 7241) = 15 * Real.pi / 7241 by ring] at h
  exact h

theorem dist_south_5pi14482 :
    haversineKm siteSouthOf.lat siteSouthOf.lng (5 * Real.pi / 14482) 0 =
      6371 * (33 * Real.pi / 14482 * (Real.pi / 180)) := by
  have hπ := Real.pi_pos
  have h := haversineKm_due_north (s := -(14 * Real.pi / 7241)) (t := 5 * Real.pi / 14482) 0
    (by nlinarith) (by nlinarith [Real.pi_lt_d2])
  rw [show 5 * Real.pi / 14482 - -(14 * Real.pi / 7241) = 33 * Real.pi / 14482 by ring] at h
  exact h

theorem bearing_south_pi7241 :
    bearingDeg siteSouthOf.lat siteSouthOf.lng (Real.pi / 7241) 0 = 0 := by
  have hπ := Real.pi_pos
  exact bearingDeg_due_north (s := -(14 * Real.pi / 7241)) (t := Real.pi / 7241) 0
    (by nlinarith) (by nlinarith [Real.pi_lt_d2])

theorem bearing_south_5pi14482 :
    bearingDeg siteSouthOf.lat siteSouthOf.lng (5 * Real.pi / 14482) 0 = 0 := by
  have hπ := Real.pi_pos
  exact bearingDeg_due_north (s := -(14 * Real.pi / 7241)) (t := 5 * Real.pi / 14482) 0
    (by nlinarith) (by nlinarith [Real.pi_lt_d2])

/-- Two due-north targets of the same site and sector, both past the
near-field threshold and on the same bearing, the farther at exactly 1.1
times the nearer distance, where `calculateRSRP` strictly increases with
distance: the nearer target sits in dense clutter (30 dB) and the farther in
the clear (0 dB), which overwhelms the extra path loss. -/
theorem c7_counterexample :
    0.01 ≤ haversineKm siteSouthOf.lat siteSouthOf.lng (Real.pi / 7241) 0 ∧
    haversineKm siteSouthOf.lat siteSouthOf.lng (Real.pi / 7241) 0 <
      haversineKm siteSouthOf.lat siteSouthOf.lng (5 * Real.pi / 14482) 0 ∧
    bearingDeg siteSouthOf.lat siteSouthOf.lng (Real.pi / 7241) 0 =
      bearingDeg siteSouthOf.lat siteSouthOf.lng (5 * Real.pi / 14482) 0 ∧
    calculateRSRP siteSouthOf secNorth (Real.pi / 7241) 0 false <
      calculateRSRP siteSouthOf secNorth (5 * Real.pi / 14482) 0 false := by
  have hsq := pi_sq_bounds
  have hπ := Real.pi_pos
  have hd1 := dist_south_pi7241
  have hd2 := dist_south_5pi14482
  have hnear : 0.01 ≤ haversineKm siteSouthOf.lat siteSouthOf.lng (Real.pi / 7241) 0 := by
    rw [hd1]
    nlinarith [hsq.1]
  have hratio : haversineKm siteSouthOf.lat siteSouthOf.lng (5 * Real.pi / 14482) 0 =
      1.1 * haversineKm siteSouthOf.lat siteSouthOf.lng (Real.pi / 7241) 0 := by
    rw [hd1, hd2]
    ring
  have hd1pos : 0 < haversineKm siteSouthOf.lat siteSouthOf.lng (Real.pi / 7241) 0 :=
    lt_of_lt_of_le (by norm_num) hnear
  have h2near : 0.01 ≤ haversineKm siteSouthOf.lat siteSouthOf.lng (5 * Real.pi / 14482) 0 := by
    rw [hratio]
    linarith
  have hq1 : ¬ getQuickDistSq siteSouthOf.lat siteSouthOf.lng (Real.pi / 7241) 0 > 0.015 := by
    rw [show getQuickDistSq siteSouthOf.lat siteSouthOf.lng (Real.pi / 7241) 0 =
      getQuickDistSq (-(14 * Real.pi / 7241)) 0 (Real.pi / 7241) 0 from rfl, getQuickDistSq]
    push_neg
    nlinarith [hsq.2]
  have hq2 : ¬ getQuickDistSq siteSouthOf.lat siteSouthOf.lng (5 * Real.pi / 14482) 0 >
      0.015 := by
    rw [show getQuickDistSq siteSouthOf.lat siteSouthOf.lng (5 * Real.pi / 14482) 0 =
      getQuickDistSq (-(14 * Real.pi / 7241)) 0 (5 * Real.pi / 14482) 0 from rfl,
      getQuickDistSq]
    push_neg
    nlinarith [hsq.2]
  have hr1 : ¬ haversineKm siteSouthOf.lat siteSouthOf.lng (Real.pi / 7241) 0 >
      MAX_EFFECTIVE_RANGE_KM := by
    rw [hd1, MAX_EFFECTIVE_RANGE_KM]
    exact not_lt.2 (by nlinarith [hsq.2])
  have hr2 : ¬ haversineKm siteSouthOf.lat siteSouthOf.lng (5 * Real.pi / 14482) 0 >
      MAX_EFFECTIVE_RANGE_KM := by
    rw [hd2, MAX_EFFECTIVE_RANGE_KM]
    exact not_lt.2 (by nlinarith [hsq.2])
  refine ⟨hnear, ?_, ?_, ?_⟩
  · rw [hd1, hd2]
    nlinarith [hsq.1]
  · rw [bearing_south_pi7241, bearing_south_5pi14482]
  · rw [calculateRSRP_eq_formula false hq1 find_antenna_amb hr1,
      calculateRSRP_eq_formula false hq2 find_antenna_amb hr2,
      clutter_pi7241, clutter_5pi14482,
      show extraLossOf siteSouthOf secNorth (Real.pi / 7241) 0 false = 0 from rfl,
      show extraLossOf siteSouthOf secNorth (5 * Real.pi / 14482) 0 false = 0 from rfl]
    have hb30 : jsOr secNorth.heightM siteSouthOf.towerHeightM = (30 : ℝ) := by
      norm_num [secNorth, siteSouthOf, jsOr]
    rw [hb30, show secNorth.frequencyMhz = (1800 : ℝ) from rfl]
    have hlogd2 : Real.logb 10 (haversineKm siteSouthOf.lat siteSouthOf.lng
        (5 * Real.pi / 14482) 0) = Real.logb 10 1.1 +
        Real.logb 10 (haversineKm siteSouthOf.lat siteSouthOf.lng (Real.pi / 7241) 0) := by
      rw [hratio, Real.logb_mul (by norm_num) (ne_of_gt hd1pos)]
    have hsub := calculateHata_sub 1800 30 1.5 hnear h2near
    have hsub2 : calculateHata (haversineKm siteSouthOf.lat siteSouthOf.lng
          (5 * Real.pi / 14482) 0) 1800 30 1.5 -
        calculateHata (haversineKm siteSouthOf.lat siteSouthOf.lng (Real.pi / 7241) 0)
          1800 30 1.5 =
        (44.9 - 6.55 * Real.logb 10 30) * Real.logb 10 1.1 := by
      rw [hsub, hlogd2]
      ring
    have hcoeff := logb_ten_thirty_bounds
    have hL := logb_ten_eleven_tenths
    have hprod : (44.9 - 6.55 * Real.logb 10 30) * Real.logb 10 1.1 ≤ 38.35 * 0.05 :=
      mul_le_mul (by linarith [hcoeff.1]) hL.2 hL.1 (by norm_num)
    have hgp1 : gainPatternOf siteSouthOf secNorth antAmb (Real.pi / 7241) 0 =
        -(vertLossOf siteSouthOf antAmb secNorth
          (haversineKm siteSouthOf.lat siteSouthOf.lng (Real.pi / 7241) 0 * 1000)) := by
      rw [gainPatternOf, bearing_south_pi7241,
        horizLossOf_zero_azimuth antAmb secNorth rfl, zero_add]
      have hvle := vertLossOf_le siteSouthOf antAmb secNorth
        (haversineKm siteSouthOf.lat siteSouthOf.lng (Real.pi / 7241) 0 * 1000)
      exact max_eq_right (by linarith)
    have hgp2 : gainPatternOf siteSouthOf secNorth antAmb (5 * Real.pi / 14482) 0 =
        -(vertLossOf siteSouthOf antAmb secNorth
          (haversineKm siteSouthOf.lat siteSouthOf.lng (5 * Real.pi / 14482) 0 * 1000)) := by
      rw [gainPatternOf, bearing_south_5pi14482,
        horizLossOf_zero_azimuth antAmb secNorth rfl, zero_add]
      have hvle := vertLossOf_le siteSouthOf antAmb secNorth
        (haversineKm siteSouthOf.lat siteSouthOf.lng (5 * Real.pi / 14482) 0 * 1000)
      exact max_eq_right (by linarith)
    rw [hgp1, hgp2]
    have hvl1 := vertLossOf_nonneg siteSouthOf antAmb secNorth
      (haversineKm siteSouthOf.lat siteSouthOf.lng (Real.pi / 7241) 0 * 1000)
    have hvl2 := vertLossOf_le siteSouthOf antAmb secNorth
      (haversineKm siteSouthOf.lat siteSouthOf.lng (5 * Real.pi / 14482) 0 * 1000)
    linarith [hsub2, hprod]

/-! ## Candidate separation of `findOptimalNextSites` (claim C3) -/

theorem foldl_min_le_init (l : List ℝ) (a : ℝ) : l.foldl min a ≤ a := by
  induction l generalizing a with
  | nil => exact le_refl a
  | cons x t ih => exact le_trans (ih (min a x)) (min_le_left a x)

theorem foldl_min_le_mem (l : List ℝ) (x : ℝ) :
    ∀ a : ℝ, x ∈ l → l.foldl min a ≤ x := by
  induction l with
  | nil => intro a h; cases h
  | cons y t ih =>
    intro a h
    rcases List.mem_cons.1 h with rfl | hm
    · exact le_trans (foldl_min_le_init t (min a x)) (min_le_right a x)
    · exact ih (min a y) hm

theorem le_foldl_max_init (l : List ℝ) (a : ℝ) : a ≤ l.foldl max a := by
  induction l generalizing a with
  | nil => exact le_refl a
  | cons x t ih => exact le_trans (le_max_left a x) (ih (max a x))

theorem minD2_fold_le_init (lat lng : ℝ) (l : List Site) :
    ∀ a : ℝ,
      l.foldl (fun m sc => min m ((lat - sc.lat) ^ 2 + (lng - sc.lng) ^ 2)) a ≤ a := by
  induction l with
  | nil => intro a; exact le_refl a
  | cons y t ih => intro a; exact le_trans (ih _) (min_le_left _ _)

theorem minD2_fold_le (lat lng : ℝ) (l : List Site) :
    ∀ (a : ℝ) (t : Site), t ∈ l →
      l.foldl (fun m sc => min m ((lat - sc.lat) ^ 2 + (lng - sc.lng) ^ 2)) a ≤
        (lat - t.lat) ^ 2 + (lng - t.lng) ^ 2 := by
  induction l with
  | nil => intro a t h; cases h
  | cons y tl ih =>
    intro a t h
    rcases List.mem_cons.1 h with rfl | hm
    · exact le_trans (minD2_fold_le_init lat lng tl _) (min_le_right _ _)
    · exact ih _ t hm

theorem minD2_fold_ge (lat lng : ℝ) (l : List Site) :
    ∀ a : ℝ, 0 ≤ a →
      0 ≤ l.foldl (fun m sc => min m ((lat - sc.lat) ^ 2 + (lng - sc.lng) ^ 2)) a := by
  induction l with
  | nil => intro a ha; exact ha
  | cons y t ih =>
    intro a ha
    exact ih _ (le_min ha (by positivity))

theorem minD2Of_nonneg (cs : List Site) (lat lng : ℝ) : 0 ≤ minD2Of cs lat lng := by
  cases cs with
  | nil => exact le_refl 0
  | cons c rest => exact minD2_fold_ge lat lng rest _ (by positivity)

theorem minD2Of_le {cs : List Site} (lat lng : ℝ) {t : Site} (h : t ∈ cs) :
    minD2Of cs lat lng ≤ (lat - t.lat) ^ 2 + (lng - t.lng) ^ 2 := by
  cases cs with
  | nil => cases h
  | cons c rest =>
    rcases List.mem_cons.1 h with rfl | hm
    · exact minD2_fold_le_init lat lng rest _
    · exact minD2_fold_le lat lng rest _ t hm

theorem meshContinuityAt_nonneg (cs : List Site) (lat lng : ℝ) :
    0 ≤ meshContinuityAt cs lat lng := by
  rw [meshContinuityAt]
  split_ifs with h
  · have habs : |getBestRSRPAtPoint cs lat lng true + 109| < 9 :=
      abs_lt.2 ⟨by linarith [h.1], by linarith [h.2]⟩
    linarith
  · exact le_refl 0

theorem getSyntheticHumanTraffic_nonneg (lat lng : ℝ) :
    0 ≤ getSyntheticHumanTraffic lat lng :=
  le_min (by norm_num) (by positivity)

theorem scoreAt_nonneg (cs : List Site) (lat lng : ℝ) : 0 ≤ scoreAt cs lat lng := by
  have h1 : (0 : ℝ) ≤ max 0 (-100 - getBestRSRPAtPoint cs lat lng true) := le_max_left _ _
  have h2 := meshContinuityAt_nonneg cs lat lng
  have h3 : (0 : ℝ) ≤ (if 400 ≤ Real.sqrt (minD2Of cs lat lng) * 111000 ∧
      Real.sqrt (minD2Of cs lat lng) * 111000 ≤ 2000 then
      100 - |Real.sqrt (minD2Of cs lat lng) * 111000 - 800| / 12
     else 0) := by
    split_ifs with h
    · have habs : |Real.sqrt (minD2Of cs lat lng) * 111000 - 800| ≤ 1200 :=
        abs_le.2 ⟨by linarith [h.1], by linarith [h.2]⟩
      linarith
    · exact le_refl 0
  have h4 := getSyntheticHumanTraffic_nonneg lat lng
  have hz1 : (0 : ℝ) ≤ (if Real.sqrt (minD2Of cs lat lng) * 111000 < 400
      then (0 : ℝ) else 1) := by
    split_ifs <;> norm_num
  have hz2 : (0 : ℝ) ≤ (if 3000 < Real.sqrt (minD2Of cs lat lng) * 111000
      then (0.2 : ℝ) else 1.0) := by
    split_ifs <;> norm_num
  have hA : (0 : ℝ) ≤ max 0 (-100 - getBestRSRPAtPoint cs lat lng true) * 1.5 +
      meshContinuityAt cs lat lng * 2.0 +
      (if 400 ≤ Real.sqrt (minD2Of cs lat lng) * 111000 ∧
          Real.sqrt (minD2Of cs lat lng) * 111000 ≤ 2000 then
        100 - |Real.sqrt (minD2Of cs lat lng) * 111000 - 800| / 12
       else 0) * 1.8 +
      getSyntheticHumanTraffic lat lng * 0.4 := by linarith
  exact mul_nonneg (mul_nonneg hA hz1) hz2

theorem scoreAt_pos_sep {cs : List Site} {lat lng : ℝ} (h : 0 < scoreAt cs lat lng) :
    400 ≤ Real.sqrt (minD2Of cs lat lng) * 111000 := by
  by_contra hc
  push_neg at hc
  rw [scoreAt, if_pos hc] at h
  rw [mul_zero, zero_mul] at h
  exact absurd h (lt_irrefl 0)

theorem sep_of_sqrt {m : ℝ} (hm : 0 ≤ m) (h : 400 ≤ Real.sqrt m * 111000) :
    (400 / 111000 : ℝ) ^ 2 ≤ m := by
  have h1 : (400 / 111000 : ℝ) ≤ Real.sqrt m := by linarith
  calc (400 / 111000 : ℝ) ^ 2 ≤ Real.sqrt m ^ 2 := pow_le_pow_left₀ (by norm_num) h1 2
    _ = m := Real.sq_sqrt hm

theorem selectBest_mem (l : List GridCandidate) :
    ∀ (acc : Option GridCandidate) (c : GridCandidate),
      selectBest l acc = some c → c ∈ l ∨ acc = some c := by
  induction l with
  | nil => intro acc c h; exact Or.inr h
  | cons x rest ih =>
    intro acc c h
    match acc with
    | none =>
      have h' : selectBest rest (some x) = some c := h
      rcases ih (some x) c h' with hm | he
      · exact Or.inl (List.mem_cons_of_mem x hm)
      · have hx : x = c := Option.some_inj.1 he
        subst hx
        exact Or.inl (List.mem_cons_self x rest)
    | some b =>
      have h' : selectBest rest (some (if x.score > b.score then x else b)) = some c := h
      rcases ih _ c h' with hm | he
      · exact Or.inl (List.mem_cons_of_mem x hm)
      · by_cases hs : x.score > b.score
        · rw [if_pos hs] at he
          have hx : x = c := Option.some_inj.1 he
          subst hx
          exact Or.inl (List.mem_cons_self x rest)
        · rw [if_neg hs] at he
          exact Or.inr he

theorem selectBest_le (l : List GridCandidate) :
    ∀ b c : GridCandidate, selectBest l (some b) = some c →
      b.score ≤ c.score ∧ ∀ x ∈ l, x.score ≤ c.score := by
  induction l with
  | nil =>
    intro b c h
    have hb : b = c := Option.some_inj.1 h
    subst hb
    exact ⟨le_refl _, fun x hx => absurd hx (List.not_mem_nil x)⟩
  | cons x rest ih =>
    intro b c h
    have h' : selectBest rest (some (if x.score > b.score then x else b)) = some c := h
    obtain ⟨h1, h2⟩ := ih _ c h'
    by_cases hs : x.score > b.score
    · rw [if_pos hs] at h1
      refine ⟨le_trans (le_of_lt hs) h1, fun y hy => ?_⟩
      rcases List.mem_cons.1 hy with rfl | hm
      · exact h1
      · exact h2 y hm
    · rw [if_neg hs] at h1
      refine ⟨h1, fun y hy => ?_⟩
      rcases List.mem_cons.1 hy with rfl | hm
      · exact le_trans (not_lt.1 hs) h1
      · exact h2 y hm

theorem selectBest_stay (l : List GridCandidate) :
    ∀ c : GridCandidate, (∀ x ∈ l, x.score ≤ c.score) → selectBest l (some c) = some c := by
  induction l with
  | nil => intro c _; rfl
  | cons x rest ih =>
    intro c h
    have hx : ¬ x.score > c.score := not_lt.2 (h x (List.mem_cons_self x rest))
    show selectBest rest (some (if x.score > c.score then x else c)) = some c
    rw [if_neg hx]
    exact ih c (fun y hy => h y (List.mem_cons_of_mem x hy))

theorem range46_cons : List.range 46 = 0 :: (List.range 45).map Nat.succ :=
  List.range_succ_eq_map 45

theorem gridLat_zero (a b : ℝ) : gridLat a b 0 = a := by
  rw [gridLat]
  norm_num

theorem gridLng_zero (a b : ℝ) : gridLng a b 0 = a := by
  rw [gridLng]
  norm_num

theorem gridCandidates_head (cs : List Site) (a b c d : ℝ) :
    ∃ t, gridCandidates cs a b c d = candidateAt cs a c :: t := by
  simp only [gridCandidates, range46_cons, List.flatMap_cons, List.map_cons,
    gridLat_zero, gridLng_zero, List.cons_append]
  exact ⟨_, rfl⟩

theorem mem_gridCandidates {cs : List Site} {a b c d : ℝ} {x : GridCandidate}
    (h : x ∈ gridCandidates cs a b c d) :
    ∃ i j : ℕ, i < 46 ∧ j < 46 ∧ x = candidateAt cs (gridLat a b i) (gridLng c d j) := by
  simp only [gridCandidates, List.mem_flatMap, List.mem_map, List.mem_range] at h
  obtain ⟨i, hi, j, hj, hx⟩ := h
  exact ⟨i, j, hi, hj, hx.symm⟩

theorem nat_cast_dist_ge_one {i j : ℕ} (h : i ≠ j) : (1 : ℝ) ≤ |(i : ℝ) - j| := by
  rcases Nat.lt_or_ge i j with hlt | hge
  · have h1 : i + 1 ≤ j := hlt
    have h1R : ((i : ℝ) + 1) ≤ j := by exact_mod_cast h1
    rw [abs_sub_comm, abs_of_nonneg (by linarith)]
    linarith
  · have hgt : j < i := lt_of_le_of_ne hge (Ne.symm h)
    have h1 : j + 1 ≤ i := hgt
    have h1R : ((j : ℝ) + 1) ≤ i := by exact_mod_cast h1
    rw [abs_of_nonneg (by linarith)]
    linarith

theorem gridLat_sep {m M : ℝ} (h : 0.24 ≤ M - m) {i1 i2 : ℕ} (hne : i1 ≠ i2) :
    (400 / 111000 : ℝ) ^ 2 ≤ (gridLat m M i1 - gridLat m M i2) ^ 2 := by
  have hd : gridLat m M i1 - gridLat m M i2 = ((i1 : ℝ) - i2) * ((M - m) / 45) := by
    rw [gridLat, gridLat]
    ring
  have habs := nat_cast_dist_ge_one hne
  have hsp : (0.24 / 45 : ℝ) ≤ (M - m) / 45 := by linarith
  have hkey : (0.24 / 45 : ℝ) ≤ |(i1 : ℝ) - i2| * ((M - m) / 45) := by
    have := mul_le_mul habs hsp (by norm_num) (abs_nonneg _)
    linarith
  calc (400 / 111000 : ℝ) ^ 2 ≤ (0.24 / 45) ^ 2 := by norm_num
    _ ≤ (|(i1 : ℝ) - i2| * ((M - m) / 45)) ^ 2 := pow_le_pow_left₀ (by norm_num) hkey 2
    _ = (((i1 : ℝ) - i2) * ((M - m) / 45)) ^ 2 := by rw [mul_pow, mul_pow, sq_abs]
    _ = (gridLat m M i1 - gridLat m M i2) ^ 2 := by rw [hd]

theorem c3_dichotomy {mLat MLat mLng MLng : ℝ} (hlat : 0.24 ≤ MLat - mLat)
    (hlng : 0.24 ≤ MLng - mLng) (a b : SiteSuggestion)
    (ha : ∃ i j : ℕ, i < 46 ∧ j < 46 ∧ a.lat = gridLat mLat MLat i ∧
      a.lng = gridLng mLng MLng j)
    (hb : ∃ i j : ℕ, i < 46 ∧ j < 46 ∧ b.lat = gridLat mLat MLat i ∧
      b.lng = gridLng mLng MLng j) :
    (a.lat = b.lat ∧ a.lng = b.lng) ∨
      (400 / 111000 : ℝ) ^ 2 ≤ (a.lat - b.lat) ^ 2 + (a.lng - b.lng) ^ 2 := by
  obtain ⟨i1, j1, _, _, hal, han⟩ := ha
  obtain ⟨i2, j2, _, _, hbl, hbn⟩ := hb
  by_cases hi : i1 = i2
  · by_cases hj : j1 = j2
    · subst hi
      subst hj
      exact Or.inl ⟨hal.trans hbl.symm, han.trans hbn.symm⟩
    · refine Or.inr ?_
      have hsep : (400 / 111000 : ℝ) ^ 2 ≤ (a.lng - b.lng) ^ 2 := by
        rw [han, hbn, show gridLng mLng MLng j1 = gridLat mLng MLng j1 from rfl,
          show gridLng mLng MLng j2 = gridLat mLng MLng j2 from rfl]
        exact gridLat_sep hlng hj
      linarith [sq_nonneg (a.lat - b.lat)]
  · refine Or.inr ?_
    have hsep : (400 / 111000 : ℝ) ^ 2 ≤ (a.lat - b.lat) ^ 2 := by
      rw [hal, hbl]
      exact gridLat_sep hlat hi
    linarith [sq_nonneg (a.lng - b.lng)]


theorem placeStep_inv {sites : List Site} {mLat MLat mLng MLng : ℝ} (srun : ℕ)
    {st : List Site × List SiteSuggestion}
    (hbox : ∀ t ∈ sites, mLat + 0.12 ≤ t.lat)
    (hinv : c3Inv sites mLat MLat mLng MLng st) :
    c3Inv sites mLat MLat mLng MLng (placeStep mLat MLat mLng MLng srun st) := by
  obtain ⟨hpre, hgrid, hfar⟩ := hinv
  cases hsel : selectBest (gridCandidates st.1 mLat MLat mLng MLng) none with
  | none =>
    have heq : placeStep mLat MLat mLng MLng srun st = st := by
      rw [placeStep, hsel]
    rw [heq]
    exact ⟨hpre, hgrid, hfar⟩
  | some b =>
    have heq : placeStep mLat MLat mLng MLng srun st =
        (st.1 ++ [{ tempSiteAt st.2.length srun b.lat b.lng with
            sectors := optimizeSiteParameters (tempSiteAt st.2.length srun b.lat b.lng)
              st.1 true }],
         st.2 ++ [⟨b.lat, b.lng, "Proximity Expansion / Handover Stitching",
            optimizeSiteParameters (tempSiteAt st.2.length srun b.lat b.lng) st.1 true⟩]) := by
      rw [placeStep, hsel]
    have hbmem : b ∈ gridCandidates st.1 mLat MLat mLng MLng := by
      rcases selectBest_mem _ none b hsel with h | h
      · exact h
      · exact Option.noConfusion h
    obtain ⟨i, j, hi, hj, hbeq⟩ := mem_gridCandidates hbmem
    have hblat : b.lat = gridLat mLat MLat i := by rw [hbeq]; rfl
    have hblng : b.lng = gridLng mLng MLng j := by rw [hbeq]; rfl
    have hbscore : b.score = scoreAt st.1 b.lat b.lng := by rw [hbeq]; rfl
    rw [heq]
    refine ⟨?_, ?_, ?_⟩
    · obtain ⟨ad, had⟩ := hpre
      refine ⟨ad ++ [{ tempSiteAt st.2.length srun b.lat b.lng with
          sectors := optimizeSiteParameters (tempSiteAt st.2.length srun b.lat b.lng)
            st.1 true }], ?_⟩
      show st.1 ++ _ = sites ++ _
      rw [had, List.append_assoc]
    · intro c hc
      replace hc : c ∈ st.2 ++ [(⟨b.lat, b.lng,
        "Proximity Expansion / Handover Stitching",
        optimizeSiteParameters (tempSiteAt st.2.length srun b.lat b.lng) st.1 true⟩ :
          SiteSuggestion)] := hc
      rcases List.mem_append.1 hc with hold | hnew
      · exact hgrid c hold
      · rw [List.mem_singleton] at hnew
        subst hnew
        exact ⟨i, j, hi, hj, hblat, hblng⟩
    · intro c hc
      replace hc : c ∈ st.2 ++ [(⟨b.lat, b.lng,
        "Proximity Expansion / Handover Stitching",
        optimizeSiteParameters (tempSiteAt st.2.length srun b.lat b.lng) st.1 true⟩ :
          SiteSuggestion)] := hc
      rcases List.mem_append.1 hc with hold | hnew
      · exact hfar c hold
      · rw [List.mem_singleton] at hnew
        subst hnew
        intro t ht
        show (400 / 111000 : ℝ) ^ 2 ≤ (b.lat - t.lat) ^ 2 + (b.lng - t.lng) ^ 2
        by_cases hpos : 0 < b.score
        · have hsep := scoreAt_pos_sep (hbscore ▸ hpos)
          have hmin := sep_of_sqrt (minD2Of_nonneg st.1 b.lat b.lng) hsep
          obtain ⟨ad, had⟩ := hpre
          have htmem : t ∈ st.1 := by
            rw [had]
            exact List.mem_append_left ad ht
          exact le_trans hmin (minD2Of_le b.lat b.lng htmem)
        · have hble : b.score ≤ 0 := not_lt.1 hpos
          obtain ⟨tail, htail⟩ := gridCandidates_head st.1 mLat MLat mLng MLng
          have hb' : selectBest (candidateAt st.1 mLat mLng :: tail) none = some b := by
            rw [← htail]
            exact hsel
          have hb'' : selectBest tail (some (candidateAt st.1 mLat mLng)) = some b := hb'
          obtain ⟨hh, hrest⟩ := selectBest_le tail _ b hb''
          have hhead0 : (0 : ℝ) ≤ (candidateAt st.1 mLat mLng).score :=
            scoreAt_nonneg st.1 mLat mLng
          have hstay := selectBest_stay tail (candidateAt st.1 mLat mLng)
            (fun y hy => le_trans (hrest y hy) (le_trans hble hhead0))
          have hbcorner : b = candidateAt st.1 mLat mLng :=
            (Option.some_inj.1 (hstay.symm.trans hb'')).symm
          have hblatc : b.lat = mLat := by rw [hbcorner]; rfl
          have hblngc : b.lng = mLng := by rw [hbcorner]; rfl
          rw [hblatc]
          have h12 : 0.12 ≤ t.lat - mLat := by linarith [hbox t ht]
          have hmul : (0.12 : ℝ) * 0.12 ≤ (t.lat - mLat) * (t.lat - mLat) :=
            mul_le_mul h12 h12 (by norm_num) (by linarith)
          nlinarith [sq_nonneg (b.lng - t.lng)]

set_option maxRecDepth 4000

/-- C3: every pair of suggestions returned by `findOptimalNextSites` is either
at the same grid location or at least the 400 m minimum-distance threshold
apart (in squared degree distance, 400 m at the 111000 m/degree conversion the
score uses), and every suggestion is at least that threshold from every input
site: the composite score is zeroed as a hard constraint below the threshold,
a positively-scored winner therefore clears it, and a zero-score iteration
falls back to the south-west corner of the padded search box, which is 0.12
degrees from every input. -/
theorem c3_separation (sites : List Site) :
    List.Pairwise (fun c1 c2 : SiteSuggestion =>
      (c1.lat = c2.lat ∧ c1.lng = c2.lng) ∨
      (400 / 111000 : ℝ) ^ 2 ≤ (c1.lat - c2.lat) ^ 2 + (c1.lng - c2.lng) ^ 2)
      (findOptimalNextSites sites) ∧
    ∀ c ∈ findOptimalNextSites sites, ∀ t ∈ sites,
      (400 / 111000 : ℝ) ^ 2 ≤ (c.lat - t.lat) ^ 2 + (c.lng - t.lng) ^ 2 := by
  cases sites with
  | nil =>
    constructor
    · exact List.Pairwise.nil
    · intro c hc
      exact absurd hc (List.not_mem_nil c)
  | cons s0 rest =>
    have hbox : ∀ t ∈ s0 :: rest,
        ((rest.map Site.lat).foldl min s0.lat - 0.12) + 0.12 ≤ t.lat := by
      intro t ht
      rcases List.mem_cons.1 ht with rfl | hm
      · have h := foldl_min_le_init (rest.map Site.lat) t.lat
        linarith
      · have h := foldl_min_le_mem (rest.map Site.lat) t.lat s0.lat
          (List.mem_map_of_mem Site.lat hm)
        linarith
    have hspanlat : 0.24 ≤ ((rest.map Site.lat).foldl max s0.lat + 0.12) -
        ((rest.map Site.lat).foldl min s0.lat - 0.12) := by
      have h1 := foldl_min_le_init (rest.map Site.lat) s0.lat
      have h2 := le_foldl_max_init (rest.map Site.lat) s0.lat
      linarith
    have hspanlng : 0.24 ≤ ((rest.map Site.lng).foldl max s0.lng + 0.12) -
        ((rest.map Site.lng).foldl min s0.lng - 0.12) := by
      have h1 := foldl_min_le_init (rest.map Site.lng) s0.lng
      have h2 := le_foldl_max_init (rest.map Site.lng) s0.lng
      linarith
    have hkey : ∀ L : List ℕ, ∀ st : List Site × List SiteSuggestion,
        c3Inv (s0 :: rest) ((rest.map Site.lat).foldl min s0.lat - 0.12)
          ((rest.map Site.lat).foldl max s0.lat + 0.12)
          ((rest.map Site.lng).foldl min s0.lng - 0.12)
          ((rest.map Site.lng).foldl max s0.lng + 0.12) st →
        c3Inv (s0 :: rest) ((rest.map Site.lat).foldl min s0.lat - 0.12)
          ((rest.map Site.lat).foldl max s0.lat + 0.12)
          ((rest.map Site.lng).foldl min s0.lng - 0.12)
          ((rest.map Site.lng).foldl max s0.lng + 0.12)
          (L.foldl (fun st srun =>
            placeStep ((rest.map Site.lat).foldl min s0.lat - 0.12)
              ((rest.map Site.lat).foldl max s0.lat + 0.12)
              ((rest.map Site.lng).foldl min s0.lng - 0.12)
              ((rest.map Site.lng).foldl max s0.lng + 0.12) srun st) st) := by
      intro L
      induction L with
      | nil => intro st h; exact h
      | cons n ns ih =>
        intro st h
        exact ih _ (placeStep_inv n hbox h)
    have hinv0 : c3Inv (s0 :: rest) ((rest.map Site.lat).foldl min s0.lat - 0.12)
        ((rest.map Site.lat).foldl max s0.lat + 0.12)
        ((rest.map Site.lng).foldl min s0.lng - 0.12)
        ((rest.map Site.lng).foldl max s0.lng + 0.12) (s0 :: rest, []) :=
      ⟨⟨[], (List.append_nil (s0 :: rest)).symm⟩,
        fun c hc => absurd hc (List.not_mem_nil c),
        fun c hc => absurd hc (List.not_mem_nil c)⟩
    obtain ⟨-, hgrid, hfar⟩ := hkey (List.range 20) (s0 :: rest, []) hinv0
    constructor
    · exact List.pairwise_of_forall_mem_list (fun a ha b hb =>
        c3_dichotomy hspanlat hspanlng a b (hgrid a ha) (hgrid b hb))
    · exact hfar
